import Mathlib

set_option linter.unusedVariables false

/-!
Shallow embedding of the fr-server Reservation & Lock Engine.

Time instants are Unix-epoch milliseconds modelled as `Int` (JS `Date.getTime()`).
Identifiers (Mongo ObjectIds, Stripe ids, user ids) are `String`s.
The Mongo/Redis/Stripe state touched by the engine is collected in a `World`
record; each service function is a pure state-passing function on `World`,
the sequential semantics of one request handler running without interleaving.
External collaborators (the Quote Engine of `pricing/calc.ts`, the sha1 used
for idempotency keys) are taken as function parameters, mirroring the spec's
collaborator interfaces.
-/

/-- Bucket granularity (`"hour" | "day"` in the source). -/
inductive Granularity where
  | hour
  | day
deriving DecidableEq, Repr

def msPerHour : Int := 3600000

def msPerDay : Int := 86400000

/-- Model of `pad2` in `utils/dates.ts`. -/
def pad2 (n : Int) : String :=
  if n < 10 then "0" ++ toString n else toString n

/-- Gregorian civil date (year, month, day) from a count of days since
1970-01-01, the arithmetic behind the JS `Date` UTC getters
(`getUTCFullYear`, `getUTCMonth`+1, `getUTCDate`). -/
def civilFromDays (z0 : Int) : Int × Int × Int :=
  let z := z0 + 719468
  let era := z.fdiv 146097
  let doe := z - era * 146097
  let yoe := (doe - doe.fdiv 1460 + doe.fdiv 36524 - doe.fdiv 146096).fdiv 365
  let y := yoe + era * 400
  let doy := doe - (365 * yoe + yoe.fdiv 4 - yoe.fdiv 100)
  let mp := (5 * doy + 2).fdiv 153
  let d := doy - (153 * mp + 2).fdiv 5 + 1
  let m := if mp < 10 then mp + 3 else mp - 9
  (if m ≤ 2 then y + 1 else y, m, d)

/-- Model of `hourBucket` in `utils/dates.ts`: the UTC string `"YYYY-MM-DDTHH"`. -/
def hourBucket (t : Int) : String :=
  let days := t.fdiv msPerDay
  let msOfDay := t - days * msPerDay
  let ymd := civilFromDays days
  let h := msOfDay.fdiv msPerHour
  toString ymd.1 ++ "-" ++ pad2 ymd.2.1 ++ "-" ++ pad2 ymd.2.2 ++ "T" ++ pad2 h

/-- Model of `dayBucket` in `utils/dates.ts`: the UTC string `"YYYY-MM-DD"`. -/
def dayBucket (t : Int) : String :=
  let days := t.fdiv msPerDay
  let ymd := civilFromDays days
  toString ymd.1 ++ "-" ++ pad2 ymd.2.1 ++ "-" ++ pad2 ymd.2.2

/-- Fuel-indexed form of the `while (t < e) { out.push(...); t += step }` loop of
`enumerateBuckets`. The fuel only bounds the number of iterations; the loop still
exits through the `t < e` test, and `stepTimes` supplies enough fuel for any
positive step. -/
def stepTimesFuel (step : Int) : Nat → Int → Int → List Int
  | 0, _, _ => []
  | fuel + 1, t, e => if t < e then t :: stepTimesFuel step fuel (t + step) e else []

/-- The `while (t < e) { out.push(...); t += step }` loop of `enumerateBuckets`,
returning the successive values of `t`. -/
def stepTimes (step t e : Int) : List Int :=
  stepTimesFuel step (e - t).toNat t e

/-- Hour alignment: `Math.floor(s / 3600000) * 3600000`. -/
def hourAlign (s : Int) : Int := s.fdiv msPerHour * msPerHour

/-- Day alignment: `Date.UTC(d0.getUTCFullYear(), d0.getUTCMonth(), d0.getUTCDate())`.
UTC days are a uniform 86400000 ms in Unix time, so taking the UTC calendar
components of `s` and rebuilding midnight is exactly flooring to a multiple
of `msPerDay`. -/
def dayAlign (s : Int) : Int := s.fdiv msPerDay * msPerDay

/-- Model of `enumerateBuckets(start, end, granularity)` in `utils/dates.ts`:
bucket keys covering `[start, end)`, empty when `end <= start`. -/
def enumerateBuckets (start e : Int) (g : Granularity) : List String :=
  if e > start then
    match g with
    | .hour => (stepTimes msPerHour (hourAlign start) e).map hourBucket
    | .day => (stepTimes msPerDay (dayAlign start) e).map dayBucket
  else []

/-- Model of `toUtcMidnight` in `utils/dates.ts` (see `dayAlign`). -/
def toUtcMidnight (t : Int) : Int := dayAlign t

/-- Bucket width of a granularity, in milliseconds. -/
def stepMs : Granularity → Int
  | .hour => msPerHour
  | .day => msPerDay

/-- Alignment of an instant to its bucket start, for either granularity. -/
def align (g : Granularity) (s : Int) : Int := s.fdiv (stepMs g) * stepMs g

/-- The bucket-key formatter of a granularity. -/
def bucketKey : Granularity → Int → String
  | .hour => hourBucket
  | .day => dayBucket

/-- The aligned bucket start times enumerated by `enumerateBuckets`. -/
def bucketTimes (start e : Int) (g : Granularity) : List Int :=
  if e > start then stepTimes (stepMs g) (align g start) e else []

/-! ## Data model (`bookings/model.ts`, `locks/model.ts`, listings, Stripe) -/

inductive BookingState where
  | draft
  | pending
  | accepted
  | declined
  | cancelled
  | inProgress
  | completed
deriving DecidableEq, Repr

inductive PaymentStatus where
  | unpaid
  | requiresAction
  | paid
  | refunded
deriving DecidableEq, Repr

inductive OdoUnit where
  | mi
  | km
deriving DecidableEq, Repr

inductive Cleanliness where
  | poor
  | fair
  | good
  | excellent
deriving DecidableEq, Repr

structure Photo where
  url : String
  key : Option String
  label : Option String
deriving DecidableEq, Repr

/-- Structured checkpoint readings. Numeric JS values are modelled as `Int`
(the validation only compares against the integer bounds 0 and 100); the
untyped `extras` passthrough is not modelled. The enumerated fields are typed,
which subsumes the source's runtime enum checks. -/
structure Readings where
  odometer : Option Int
  odometerUnit : Option OdoUnit
  fuelPercent : Option Int
  batteryPercent : Option Int
  hoursMeter : Option Int
  rangeEstimate : Option Int
  cleanliness : Option Cleanliness
deriving DecidableEq, Repr

structure Checkpoint where
  byId : Option String
  atMs : Option Int
  photos : List Photo
  notes : Option String
  readings : Option Readings
deriving DecidableEq, Repr

structure LineItem where
  code : String
  label : String
  amountCents : Int
deriving DecidableEq, Repr

structure Snapshot where
  currency : String
  totalCents : Int
  baseCents : Option Int
  feeCents : Option Int
  discountCents : Option Int
  taxCents : Option Int
  depositCents : Option Int
  promoCode : Option String
  lineItems : List LineItem
deriving DecidableEq, Repr

/-- A Booking document. `start`/`end` are `startMs`/`endMs` (`end` is a Lean
keyword); `paymentRefs.rentalIntentId`/`paymentRefs.chargeId` are inlined. -/
structure Booking where
  id : String
  listingId : String
  assetId : String
  hostId : String
  renterId : String
  startMs : Int
  endMs : Int
  granularity : Granularity
  pricingSnapshot : Snapshot
  state : BookingState
  paymentStatus : PaymentStatus
  rentalIntentId : Option String
  chargeId : Option String
  checkin : Option Checkpoint
  checkout : Option Checkpoint
deriving DecidableEq, Repr

/-- A BookingLock document (`locks/model.ts`); `(listingId, dateBucket)` is
unique, which `lockBuckets` below enforces on insert. -/
structure Lock where
  listingId : String
  dateBucket : String
  granularity : Granularity
  createdBy : Option String
  reason : Option String
  holdUntil : Option Int
deriving DecidableEq, Repr

structure Blackout where
  startMs : Int
  endMs : Int
  reason : Option String
deriving DecidableEq, Repr

structure Pricing where
  baseDailyCents : Option Int
  baseHourlyCents : Option Int
  feeCents : Option Int
  depositCents : Option Int
  currency : Option String
deriving DecidableEq, Repr

structure Listing where
  id : String
  hostId : String
  assetId : String
  status : String
  instantBook : Bool
  blackouts : List Blackout
  pricing : Pricing
deriving DecidableEq, Repr

structure Asset where
  id : String
  category : Option String
deriving DecidableEq, Repr

inductive PiStatus where
  | requiresPaymentMethod
  | requiresConfirmation
  | requiresAction
  | processing
  | requiresCapture
  | succeeded
  | canceled
deriving DecidableEq, Repr

/-- Stripe PaymentIntent metadata as written by `POST /payments/intents`.
The `startISO`/`endISO` strings are modelled by their parsed instant
(`new Date(str).getTime()`), with `none` standing for an invalid date (NaN);
`totalCents` is modelled by its parsed number (`Number(md.totalCents || 0)`). -/
structure PiMetadata where
  renterId : String
  listingId : String
  startMs : Option Int
  endMs : Option Int
  totalCents : Int
  promoCode : Option String
deriving DecidableEq, Repr

structure PaymentIntent where
  id : String
  status : PiStatus
  amount : Int
  clientSecret : String
  metadata : PiMetadata
  latestCharge : Option String
deriving DecidableEq, Repr

/-- The store state one request handler sees: Mongo collections, the Stripe
account (payment intents and issued refunds), and the Redis keyspace used for
the payment-intent idempotency cache. -/
structure World where
  bookings : List Booking
  locks : List Lock
  listings : List Listing
  assets : List Asset
  paymentIntents : List PaymentIntent
  refunds : List String
  kv : List (String × String)
  nextId : Nat
deriving DecidableEq, Repr

/-- Stable service-level error: `Object.assign(new Error(message), {code, status})`,
with the optional conflict payloads `assertAvailable` attaches. -/
structure SvcErr where
  code : String
  message : String
  status : Option Nat
  conflictBuckets : Option (List String)
  conflictBlackouts : Option (List Blackout)
deriving DecidableEq, Repr

def mkErr (code message : String) (status : Option Nat) : SvcErr :=
  ⟨code, message, status, none, none⟩

/-- Quote Engine output (`pricing/calc.ts` `QuoteResult`). -/
structure Quote where
  currency : String
  granularity : Granularity
  nUnits : Int
  baseCents : Int
  feeCents : Int
  discountCents : Int
  taxCents : Int
  depositCents : Int
  totalCents : Int
  lineItems : List LineItem
deriving DecidableEq, Repr

/-- The Quote Engine collaborator interface: `computeQuote({listing, start, end,
promoCode})`, which can also fail (INVALID_WINDOW / NO_PRICING). The engine is
treated as an external pure collaborator and passed in as a function. -/
def QuoteFn : Type := Listing → Int → Int → Option String → Except SvcErr Quote

/-! ## Lookup helpers and shared service utilities -/

def isHexDigit (c : Char) : Bool :=
  c.isDigit || ('a' ≤ c && c ≤ 'f') || ('A' ≤ c && c ≤ 'F')

/-- Model of `mongoose.isValidObjectId` for the 24-hex-character form the API
passes around. -/
def isValidObjectId (s : String) : Bool :=
  s.length == 24 && s.data.all isHexDigit

def findBooking (w : World) (id : String) : Option Booking :=
  w.bookings.find? (fun b => b.id == id)

def findListing (w : World) (id : String) : Option Listing :=
  w.listings.find? (fun l => l.id == id)

def findAsset (w : World) (id : String) : Option Asset :=
  w.assets.find? (fun a => a.id == id)

/-- Model of `stripe.paymentIntents.retrieve`; `none` covers both an unknown id
and a response that is not a payment_intent object. -/
def findPi (w : World) (id : String) : Option PaymentIntent :=
  w.paymentIntents.find? (fun p => p.id == id)

def kvLookup (kv : List (String × String)) (k : String) : Option String :=
  (kv.find? (fun p => p.1 == k)).map (fun p => p.2)

/-- Model of `getCategory`: the listing's asset category, `"misc"` when the
asset is missing or its category is unset/empty (JS `asset?.category || "misc"`). -/
def getCategory (w : World) (l : Listing) : String :=
  match (findAsset w l.assetId).bind Asset.category with
  | some c => if c = "" then "misc" else c
  | none => "misc"

def HOUR_CATS : List String := ["car", "boat", "jetski"]

/-- Model of `buildBucketsAndGranularity` in `bookings/service.ts`. -/
def buildBucketsAndGranularity (w : World) (l : Listing) (startMs endMs : Int) :
    Granularity × List String :=
  let category := getCategory w l
  let granularity := if category ∈ HOUR_CATS then Granularity.hour else Granularity.day
  (granularity, enumerateBuckets startMs endMs granularity)

/-- Model of `buildBucketsFromBooking` in `bookings/service.ts`. -/
def buildBucketsFromBooking (b : Booking) : List String :=
  let s := if b.granularity = Granularity.hour then b.startMs else toUtcMidnight b.startMs
  let e := if b.granularity = Granularity.hour then b.endMs else toUtcMidnight b.endMs
  enumerateBuckets s e b.granularity

/-- Model of `overlaps` in `bookings/service.ts`. -/
def overlaps (aStart aEnd bStart bEnd : Int) : Bool :=
  aStart < bEnd && bStart < aEnd

/-! ## Lock store service (`locks/service.ts`) -/

def lockConflictErr : SvcErr :=
  mkErr "LOCK_CONFLICT" "One or more buckets are already locked" none

/-- Model of `lockBuckets`: `insertMany(docs, {ordered: true})` against the
unique `(listingId, dateBucket)` index. Documents are inserted one at a time;
the first duplicate aborts with `LOCK_CONFLICT`, leaving the earlier inserts in
place (ordered-insert semantics). -/
def lockBuckets (lid : String) (g : Granularity) (createdBy reason : Option String)
    (holdUntil : Option Int) : List String → List Lock → Except SvcErr Unit × List Lock
  | [], locks => (Except.ok (), locks)
  | b :: rest, locks =>
    if locks.any (fun l => l.listingId == lid && l.dateBucket == b) then
      (Except.error lockConflictErr, locks)
    else
      lockBuckets lid g createdBy reason holdUntil rest
        (locks ++ [⟨lid, b, g, createdBy, reason, holdUntil⟩])

/-- Model of `unlockBuckets`: delete the listing's locks on the given buckets. -/
def unlockBuckets (lid : String) (buckets : List String) (w : World) : World :=
  { w with locks :=
      w.locks.filter (fun l => !(l.listingId == lid && buckets.contains l.dateBucket)) }

/-- Model of `unlockByReason`: delete the listing's locks carrying an exact reason. -/
def unlockByReason (lid reason : String) (w : World) : World :=
  { w with locks :=
      w.locks.filter (fun l => !(l.listingId == lid && l.reason == some reason)) }

/-- Model of `retagLocks`: rewrite the reason of the listing's locks from
`fromReason` to `toReason` and clear their TTL (`$unset holdUntil`). -/
def retagLocks (lid fromReason toReason : String) (w : World) : World :=
  { w with locks :=
      w.locks.map (fun l =>
        if l.listingId == lid && l.reason == some fromReason then
          { l with reason := some toReason, holdUntil := none }
        else l) }

/-! ## Booking service (`bookings/service.ts`, pay-first iteration) -/

/-- Model of `assertAvailable`: `none` when the window is available, otherwise
the error the source throws (including the conflict payloads). -/
def assertAvailable (l : Listing) (startMs endMs : Int) (buckets : List String)
    (w : World) : Option SvcErr :=
  if buckets = [] then
    some (mkErr "INVALID_WINDOW" "Empty or invalid time window" none)
  else
    let lockDocs := w.locks.filter (fun lk => lk.listingId == l.id && buckets.contains lk.dateBucket)
    let blackoutHits := l.blackouts.filter (fun b => overlaps startMs endMs b.startMs b.endMs)
    if lockDocs.isEmpty && blackoutHits.isEmpty then none
    else
      some { code := "UNAVAILABLE", message := "Requested window is unavailable",
             status := none,
             conflictBuckets := some (lockDocs.map Lock.dateBucket),
             conflictBlackouts := some blackoutHits }

/-- Intermediate context of Step B (`createBooking` from a PaymentIntent) after
its read-only validations: the retrieved PI, its validated metadata, the active
listing, the bucket set, and the recomputed quote. -/
structure StepBCtx where
  pi : PaymentIntent
  listing : Listing
  startMs : Int
  endMs : Int
  granularity : Granularity
  buckets : List String
  quote : Quote
  snapshotTotalCents : Int
  promoCode : Option String
deriving DecidableEq, Repr

/-- The read-only prefix of `createBooking` (pay-first Step B), lines 281-322 of
`bookings/service.ts`: retrieve and validate the PaymentIntent, its metadata
dates and renter, the active listing, build buckets, and recompute the quote. -/
def stepBPre (qf : QuoteFn) (renterId paymentIntentId : String) (w : World) :
    Except SvcErr StepBCtx :=
  match findPi w paymentIntentId with
  | none => Except.error (mkErr "INVALID_PI" "Invalid paymentIntent" (some 400))
  | some pi =>
    if pi.status ≠ PiStatus.succeeded then
      Except.error (mkErr "PI_NOT_SUCCEEDED" "Payment not completed" (some 409))
    else
      let md := pi.metadata
      if ¬ (isValidObjectId md.listingId = true) then
        Except.error (mkErr "INVALID_ID" "Invalid listingId in PI metadata" none)
      else
        match md.startMs, md.endMs with
        | some s, some e =>
          if e ≤ s then
            Except.error (mkErr "INVALID_WINDOW" "Invalid dates in PI metadata" none)
          else if md.renterId ≠ renterId then
            Except.error (mkErr "FORBIDDEN" "Forbidden" (some 403))
          else
            match findListing w md.listingId with
            | none => Except.error (mkErr "LISTING_NOT_FOUND" "Listing not found" none)
            | some listing =>
              if listing.status ≠ "active" then
                Except.error (mkErr "LISTING_NOT_FOUND" "Listing not found" none)
              else
                let gb := buildBucketsAndGranularity w listing s e
                match qf listing s e md.promoCode with
                | Except.error qe => Except.error qe
                | Except.ok quote =>
                  Except.ok ⟨pi, listing, s, e, gb.1, gb.2, quote, md.totalCents, md.promoCode⟩
        | _, _ => Except.error (mkErr "INVALID_WINDOW" "Invalid dates in PI metadata" none)

def amountMismatchErr : SvcErr := mkErr "AMOUNT_MISMATCH" "Amount mismatch" (some 409)

def unavailableErr : SvcErr :=
  mkErr "UNAVAILABLE" "Requested window is unavailable" (some 409)

/-- The store's rejection of a second Booking with the same
`paymentRefs.rentalIntentId` (the unique sparse index at `bookings/model.ts:230`);
surfaces as an uncaught Mongo E11000 duplicate-key error. -/
def duplicateKeyErr : SvcErr := mkErr "DUPLICATE_KEY" "E11000 duplicate key error" none

/-- Model of Step B, `createBooking({renterId, paymentIntentId})` in
`bookings/service.ts` (pay-first iteration): after `stepBPre`, assert amount
integrity, verify the PI-tagged locks cover every bucket (releasing the
remaining same-tag locks and failing UNAVAILABLE otherwise), create the durable
Booking (subject to the unique payment-reference index), and retag the locks
from `pi:<id>` to `booking:<id>`. -/
def createBooking (qf : QuoteFn) (renterId paymentIntentId : String) (w : World) :
    Except SvcErr Booking × World :=
  match stepBPre qf renterId paymentIntentId w with
  | Except.error e => (Except.error e, w)
  | Except.ok ctx =>
    if ctx.quote.totalCents ≠ ctx.snapshotTotalCents ∨ ctx.pi.amount ≠ ctx.snapshotTotalCents then
      (Except.error amountMismatchErr, w)
    else
      let piReason := "pi:" ++ ctx.pi.id
      let piLocks := w.locks.filter (fun l =>
        l.listingId == ctx.listing.id && l.reason == some piReason &&
          ctx.buckets.contains l.dateBucket)
      if piLocks.length ≠ ctx.buckets.length then
        (Except.error unavailableErr, unlockByReason ctx.listing.id piReason w)
      else if w.bookings.any (fun b => b.rentalIntentId == some ctx.pi.id) then
        (Except.error duplicateKeyErr, w)
      else
        let bid := "bk_" ++ toString w.nextId
        let doc : Booking :=
          { id := bid
            listingId := ctx.listing.id
            assetId := ctx.listing.assetId
            hostId := ctx.listing.hostId
            renterId := renterId
            startMs := ctx.startMs
            endMs := ctx.endMs
            granularity := ctx.granularity
            pricingSnapshot :=
              { currency := ctx.quote.currency
                totalCents := ctx.quote.totalCents
                baseCents := some ctx.quote.baseCents
                feeCents := some ctx.quote.feeCents
                discountCents := some ctx.quote.discountCents
                taxCents := some ctx.quote.taxCents
                depositCents := some ctx.quote.depositCents
                promoCode := ctx.promoCode
                lineItems := ctx.quote.lineItems }
            state := if ctx.listing.instantBook then BookingState.accepted else BookingState.pending
            paymentStatus := PaymentStatus.paid
            rentalIntentId := some ctx.pi.id
            chargeId := ctx.pi.latestCharge
            checkin := none
            checkout := none }
        let w1 : World := { w with bookings := w.bookings ++ [doc], nextId := w.nextId + 1 }
        (Except.ok doc, retagLocks ctx.listing.id piReason ("booking:" ++ bid) w1)

def invalidIdErr : SvcErr := mkErr "INVALID_ID" "Invalid booking id" none

def notFoundErr : SvcErr := mkErr "NOT_FOUND" "Not found" (some 404)

def forbiddenErr : SvcErr := mkErr "FORBIDDEN" "Forbidden" (some 403)

def invalidStateErr : SvcErr := mkErr "INVALID_STATE" "Invalid state" (some 409)

/-- Persist a mutated booking document (`b.save()` / `findOneAndUpdate`). -/
def replaceBooking (bs : List Booking) (id : String) (b' : Booking) : List Booking :=
  bs.map (fun x => if x.id == id then b' else x)

/-- Model of `acceptBooking(hostId, bookingId)`. -/
def acceptBooking (hostId bookingId : String) (w : World) : Except SvcErr Booking × World :=
  if ¬ (isValidObjectId bookingId = true) then (Except.error invalidIdErr, w)
  else
    match findBooking w bookingId with
    | none => (Except.error notFoundErr, w)
    | some b =>
      if b.hostId ≠ hostId then (Except.error forbiddenErr, w)
      else if b.state ≠ BookingState.pending then (Except.error invalidStateErr, w)
      else
        let b' := { b with state := BookingState.accepted }
        (Except.ok b', { w with bookings := replaceBooking w.bookings bookingId b' })

/-- The refund-then-unlock suffix shared by decline and cancel: refund the
charge when the booking is paid and has a chargeId (the successful path of the
`stripe.refunds.create` try/catch), release the booking's buckets, and persist
the terminal state. -/
def refundUnlockAndClose (b : Booking) (bookingId : String) (terminal : BookingState)
    (w : World) : Except SvcErr Booking × World :=
  let buckets := buildBucketsFromBooking b
  let refunded := b.paymentStatus = PaymentStatus.paid ∧ b.chargeId.isSome
  let b1 := if refunded then { b with paymentStatus := PaymentStatus.refunded } else b
  let w1 :=
    if refunded then
      { w with refunds := w.refunds ++ [b.chargeId.getD ""] }
    else w
  let w2 := unlockBuckets b.listingId buckets w1
  let b2 := { b1 with state := terminal }
  (Except.ok b2, { w2 with bookings := replaceBooking w2.bookings bookingId b2 })

/-- Model of `declineBooking(hostId, bookingId)` (pay-first iteration: refund if
paid, unlock, then mark declined). -/
def declineBooking (hostId bookingId : String) (w : World) : Except SvcErr Booking × World :=
  if ¬ (isValidObjectId bookingId = true) then (Except.error invalidIdErr, w)
  else
    match findBooking w bookingId with
    | none => (Except.error notFoundErr, w)
    | some b =>
      if b.hostId ≠ hostId then (Except.error forbiddenErr, w)
      else if b.state ≠ BookingState.pending then (Except.error invalidStateErr, w)
      else refundUnlockAndClose b bookingId BookingState.declined w

/-- Model of `cancelPendingBooking(renterId, bookingId)`. -/
def cancelPendingBooking (renterId bookingId : String) (w : World) :
    Except SvcErr Booking × World :=
  if ¬ (isValidObjectId bookingId = true) then (Except.error invalidIdErr, w)
  else
    match findBooking w bookingId with
    | none => (Except.error notFoundErr, w)
    | some b =>
      if b.renterId ≠ renterId then (Except.error forbiddenErr, w)
      else if b.state ≠ BookingState.pending then (Except.error invalidStateErr, w)
      else refundUnlockAndClose b bookingId BookingState.cancelled w

/-! ## Checkpoint validation and check-in / check-out -/

/-- Photo-URL environment configuration (`CDN_DOMAIN`, `S3_PUBLIC_HOST ||
ASSETS_PUBLIC_HOST || S3_BUCKET_HOST`); `none` models unset or empty (falsy). -/
structure Env where
  cdnDomain : Option String
  s3PublicHost : Option String
deriving DecidableEq, Repr

structure ParsedUrl where
  protocol : String
  host : String
deriving DecidableEq, Repr

/-- Partial model of `new URL(u)` covering absolute http/https URLs, the only
shapes `isHttpOrHttps`/`photoUrlAllowed` distinguish: other inputs go to `none`,
which the callers treat exactly like a non-http(s) scheme. -/
def parseUrl (u : String) : Option ParsedUrl :=
  if u.startsWith "http://" then
    some ⟨"http:", (u.drop 7).takeWhile (fun c => c != '/' && c != '?' && c != '#')⟩
  else if u.startsWith "https://" then
    some ⟨"https:", (u.drop 8).takeWhile (fun c => c != '/' && c != '?' && c != '#')⟩
  else none

/-- Model of `isHttpOrHttps` in `bookings/service.ts`. -/
def isHttpOrHttps (u : String) : Bool :=
  match parseUrl u with
  | some p => p.protocol == "http:" || p.protocol == "https:"
  | none => false

/-- Model of `photoUrlAllowed` in `bookings/service.ts`. -/
def photoUrlAllowed (env : Env) (u : String) : Bool :=
  match parseUrl u with
  | none => false
  | some p =>
    if ¬ (p.protocol = "http:" ∨ p.protocol = "https:") then false
    else
      match env.cdnDomain with
      | some cdn => p.host == cdn
      | none =>
        match env.s3PublicHost with
        | some h => p.host == h
        | none => true

/-- Checkpoint request payload (`{photos?, notes?, readings?}`). -/
structure CheckpointInput where
  photos : Option (List Photo)
  notes : Option String
  readings : Option Readings
deriving DecidableEq, Repr

def invalidBody (message : String) : SvcErr := mkErr "INVALID_BODY" message (some 422)

def checkNotes (input : CheckpointInput) : Option SvcErr :=
  match input.notes with
  | some n => if n.length > 2000 then some (invalidBody "notes must be ≤ 2000 characters.") else none
  | none => none

/-- JS truthiness: `!input.photos && !input.notes && !input.readings` — an empty
photos array or readings object is truthy, an empty notes string is falsy. -/
def checkPresence (input : CheckpointInput) : Option SvcErr :=
  if input.photos = none ∧ (input.notes = none ∨ input.notes = some "") ∧ input.readings = none
  then some (invalidBody "Provide at least one of photos|notes|readings.")
  else none

def checkPhotos (env : Env) (input : CheckpointInput) : Option SvcErr :=
  match input.photos with
  | none => none
  | some ps =>
    if ps.length > 20 then some (invalidBody "Maximum 20 photos per checkpoint.")
    else if ps.any (fun p => p.url == "" || !isHttpOrHttps p.url || !photoUrlAllowed env p.url)
    then some (invalidBody "Photo URL must be http/https and from an allowed host.")
    else none

def checkReadings (input : CheckpointInput) : Option SvcErr :=
  match input.readings with
  | none => none
  | some r =>
    (match r.odometer with
     | some v => if v < 0 then some (invalidBody "odometer must be >= 0.") else none
     | none => none) <|>
    (match r.fuelPercent with
     | some v => if v < 0 ∨ v > 100 then some (invalidBody "fuelPercent must be between 0 and 100.") else none
     | none => none) <|>
    (match r.batteryPercent with
     | some v => if v < 0 ∨ v > 100 then some (invalidBody "batteryPercent must be between 0 and 100.") else none
     | none => none) <|>
    (match r.hoursMeter with
     | some v => if v < 0 then some (invalidBody "hoursMeter must be >= 0.") else none
     | none => none) <|>
    (match r.rangeEstimate with
     | some v => if v < 0 then some (invalidBody "rangeEstimate must be >= 0.") else none
     | none => none)

/-- Model of `validateCheckpointInput`: the first validation error thrown, or
`none` when the payload is acceptable. The notes/photo-key type checks and the
enum checks are enforced by typing. -/
def validateCheckpointInput (env : Env) (input : CheckpointInput) : Option SvcErr :=
  checkNotes input <|> checkPresence input <|> checkPhotos env input <|> checkReadings input

/-- Model of `isParticipant`. -/
def isParticipant (b : Booking) (actorId : String) : Bool :=
  b.hostId == actorId || b.renterId == actorId

def checkinWindowErr : SvcErr :=
  mkErr "INVALID_WINDOW" "Check-in allowed from start through end (inclusive)." (some 422)

def checkoutWindowErr : SvcErr :=
  mkErr "INVALID_WINDOW" "Check-out allowed from check-in time through end + 12h (inclusive)." (some 422)

/-- The `$set` of the check-in `findOneAndUpdate`. -/
def checkinApplied (b : Booking) (actorId : String) (now : Int) (input : CheckpointInput) :
    Booking :=
  { b with
      state := BookingState.inProgress
      checkin := some
        { byId := some actorId, atMs := some now, photos := input.photos.getD []
          notes := input.notes, readings := input.readings } }

/-- The `$set` of the check-out `findOneAndUpdate`. -/
def checkoutApplied (b : Booking) (actorId : String) (now : Int) (input : CheckpointInput) :
    Booking :=
  { b with
      state := BookingState.completed
      checkout := some
        { byId := some actorId, atMs := some now, photos := input.photos.getD []
          notes := input.notes, readings := input.readings } }

/-- Model of `checkIn(actorId, bookingId, input)`. The guarded
`findOneAndUpdate` re-asserts `state: "accepted"` and `"checkin.at": {$exists:
false}` against concurrent writers; in this sequential embedding those guards
were just established by the preceding checks, so the update applies. -/
def checkIn (env : Env) (now : Int) (actorId bookingId : String) (input : CheckpointInput)
    (w : World) : Except SvcErr Booking × World :=
  if ¬ (isValidObjectId bookingId = true) then (Except.error invalidIdErr, w)
  else
    match validateCheckpointInput env input with
    | some e => (Except.error e, w)
    | none =>
      match findBooking w bookingId with
      | none => (Except.error notFoundErr, w)
      | some b =>
        if ¬ (isParticipant b actorId = true) then (Except.error notFoundErr, w)
        else if (b.checkin.bind Checkpoint.atMs).isSome then (Except.ok b, w)
        else if b.state ≠ BookingState.accepted then
          (Except.error (mkErr "INVALID_STATE" "Check-in allowed only when accepted." (some 409)), w)
        else if b.paymentStatus ≠ PaymentStatus.paid then
          (Except.error (mkErr "INVALID_STATE" "Check-in requires a paid booking." (some 409)), w)
        else if ¬ (b.startMs ≤ now ∧ now ≤ b.endMs) then
          (Except.error checkinWindowErr, w)
        else
          let b' := checkinApplied b actorId now input
          (Except.ok b', { w with bookings := replaceBooking w.bookings bookingId b' })

/-- Model of `checkOut(actorId, bookingId, input)` (see `checkIn` about the
guarded update). -/
def checkOut (env : Env) (now : Int) (actorId bookingId : String) (input : CheckpointInput)
    (w : World) : Except SvcErr Booking × World :=
  if ¬ (isValidObjectId bookingId = true) then (Except.error invalidIdErr, w)
  else
    match validateCheckpointInput env input with
    | some e => (Except.error e, w)
    | none =>
      match findBooking w bookingId with
      | none => (Except.error notFoundErr, w)
      | some b =>
        if ¬ (isParticipant b actorId = true) then (Except.error notFoundErr, w)
        else if (b.checkout.bind Checkpoint.atMs).isSome then (Except.ok b, w)
        else if b.state ≠ BookingState.inProgress then
          (Except.error (mkErr "INVALID_STATE" "Check-out allowed only when in_progress." (some 409)), w)
        else
          match b.checkin.bind Checkpoint.atMs with
          | none =>
            (Except.error (mkErr "INVALID_STATE" "Check-out not allowed before check-in." (some 409)), w)
          | some checkinAt =>
            if ¬ (checkinAt ≤ now ∧ now ≤ b.endMs + 12 * 60 * 60 * 1000) then
              (Except.error checkoutWindowErr, w)
            else
              let b' := checkoutApplied b actorId now input
              (Except.ok b', { w with bookings := replaceBooking w.bookings bookingId b' })

/-! ## Step A: `POST /payments/intents` (`payments/routes.ts`) -/

/-- Exact integer form of JS `Math.ceil(a / b)` for positive `b`. -/
def ceilDiv (a b : Int) : Int := -((-a).fdiv b)

structure DayPrice where
  baseCents : Int
  feeCents : Int
  depositCents : Int
  taxCents : Int
  totalCents : Int
deriving DecidableEq, Repr

/-- Model of `priceSnapshotByDays(listing, start, end)`: bills whole days
(ceil, minimum 1); `NO_PRICING` when neither a daily nor an hourly base rate is
set (JS `!daily`, i.e. the resolved daily rate is 0). Returns
`(billableDays, snapshot)`. -/
def priceSnapshotByDays (l : Listing) (startMs endMs : Int) : Except SvcErr (Int × DayPrice) :=
  let feeCents := l.pricing.feeCents.getD 0
  let depositCents := l.pricing.depositCents.getD 0
  let taxCents : Int := 0
  let daily :=
    match l.pricing.baseDailyCents with
    | some d => d
    | none => (l.pricing.baseHourlyCents.getD 0) * 24
  if daily = 0 then Except.error (mkErr "NO_PRICING" "Missing daily/hourly pricing" none)
  else
    let billableDays := max 1 (ceilDiv (endMs - startMs) msPerDay)
    let baseCents := billableDays * daily
    Except.ok (billableDays, ⟨baseCents, feeCents, depositCents, taxCents, baseCents + feeCents + taxCents⟩)

/-- Express-level error body `{error: {code, message?, ...}}`; the conflict
fields are only ever populated by the quote-preview/availability checks. -/
structure ErrBody where
  code : String
  message : Option String
  conflictBuckets : Option (List String)
  conflictBlackouts : Option (List Blackout)
deriving DecidableEq, Repr

/-- An HTTP route outcome: `jsonOk` body or an error status with body. -/
inductive RouteRes (α : Type) where
  | ok (body : α)
  | err (status : Nat) (body : ErrBody)
deriving DecidableEq, Repr

structure IntentOk where
  paymentIntentId : String
  clientSecret : String
deriving DecidableEq, Repr

/-- Namespace prefix of `key(...)` in `config/redis.ts` (`env.REDIS_NAMESPACE`). -/
def redisNs : String := "fr"

/-- The idempotency cache key of `POST /payments/intents`: sha1 of the caller
header when present and non-empty, otherwise of the derived request
fingerprint. The date ISO strings of the fingerprint are rendered from the
instant, and sha1 is an external collaborator passed as a function. -/
def intentCacheKey (sha1hex : String → String) (userId listingId : String)
    (startMs endMs totalCents : Int) (idempHeader : String) : String :=
  let derived := "pi:rental:" ++ userId ++ ":" ++ listingId ++ ":" ++ toString startMs ++
    ":" ++ toString endMs ++ ":" ++ toString totalCents
  redisNs ++ ":pi:intent:" ++ sha1hex (if idempHeader = "" then derived else idempHeader)

/-- Model of `stripe.paymentIntents.cancel(id)`. -/
def cancelPi (w : World) (id : String) : World :=
  { w with paymentIntents :=
      w.paymentIntents.map (fun p => if p.id == id then { p with status := PiStatus.canceled } else p) }

/-- Model of `redis.set(key, val, {NX: true, EX: ...})` (TTL not modelled). -/
def kvSetNX (w : World) (k v : String) : World :=
  if (kvLookup w.kv k).isSome then w else { w with kv := w.kv ++ [(k, v)] }

/-- The create-and-hold tail of `POST /payments/intents`: create a fresh
PaymentIntent sized to the quoted total, try to lock every bucket tagged
`pi:<id>` with a 30-minute hold, cancelling the PI and failing 409 UNAVAILABLE
on a lock conflict, and finally record the PI id under the idempotency key. -/
def intentCreateAndHold (now : Int) (userId listingId : String) (startMs endMs : Int)
    (g : Granularity) (buckets : List String) (totalCents : Int) (cacheKey : String)
    (w : World) : RouteRes IntentOk × World :=
  let piId := "pi_" ++ toString w.nextId
  let clientSecret := "cs_" ++ toString w.nextId
  let pi : PaymentIntent :=
    { id := piId
      status := PiStatus.requiresPaymentMethod
      amount := totalCents
      clientSecret := clientSecret
      metadata :=
        { renterId := userId, listingId := listingId, startMs := some startMs,
          endMs := some endMs, totalCents := totalCents, promoCode := none }
      latestCharge := none }
  let w1 : World := { w with paymentIntents := w.paymentIntents ++ [pi], nextId := w.nextId + 1 }
  let holdUntil := now + 30 * 60 * 1000
  match lockBuckets listingId g (some userId) (some ("pi:" ++ piId)) (some holdUntil) buckets w1.locks with
  | (Except.error _, locks') =>
    let w2 := cancelPi { w1 with locks := locks' } piId
    (RouteRes.err 409 ⟨"UNAVAILABLE", some "Requested window is unavailable", none, none⟩, w2)
  | (Except.ok _, locks') =>
    let w2 := kvSetNX { w1 with locks := locks' } cacheKey piId
    (RouteRes.ok ⟨piId, clientSecret⟩, w2)

/-- Reusable-PI statuses of the cache-hit path of `POST /payments/intents`. -/
def reusableStatuses : List PiStatus :=
  [PiStatus.requiresPaymentMethod, PiStatus.requiresAction, PiStatus.processing, PiStatus.succeeded]

/-- Model of Step A, the `POST /payments/intents` handler: resolve the active
listing, build buckets (rejecting an empty window), price the window, check the
Redis idempotency cache for a live PI, and otherwise create a fresh PI and
acquire the payment-scoped hold. -/
def postIntents (sha1hex : String → String) (now : Int) (userId listingId : String)
    (startMs endMs : Int) (idempHeader : String) (w : World) : RouteRes IntentOk × World :=
  match findListing w listingId with
  | none => (RouteRes.err 404 ⟨"LISTING_NOT_FOUND", none, none, none⟩, w)
  | some listing =>
    if listing.status ≠ "active" then
      (RouteRes.err 404 ⟨"LISTING_NOT_FOUND", none, none, none⟩, w)
    else
      let gb := buildBucketsAndGranularity w listing startMs endMs
      if gb.2 = [] then
        (RouteRes.err 422 ⟨"INVALID_WINDOW", some "Empty window", none, none⟩, w)
      else
        match priceSnapshotByDays listing startMs endMs with
        | Except.error e => (RouteRes.err (e.status.getD 500) ⟨e.code, some e.message, none, none⟩, w)
        | Except.ok ps =>
          if ps.2.totalCents ≤ 0 then
            (RouteRes.err 422 ⟨"NO_PRICING", none, none, none⟩, w)
          else
            let cacheKey := intentCacheKey sha1hex userId listingId startMs endMs ps.2.totalCents idempHeader
            match kvLookup w.kv cacheKey with
            | some cachedId =>
              (match findPi w cachedId with
               | some existing =>
                 if existing.status ∈ reusableStatuses then
                   (RouteRes.ok ⟨existing.id, existing.clientSecret⟩, w)
                 else
                   intentCreateAndHold now userId listingId startMs endMs gb.1 gb.2 ps.2.totalCents cacheKey w
               | none =>
                 intentCreateAndHold now userId listingId startMs endMs gb.1 gb.2 ps.2.totalCents cacheKey w)
            | none =>
              intentCreateAndHold now userId listingId startMs endMs gb.1 gb.2 ps.2.totalCents cacheKey w

/-! ## Availability route and direct booking creation -/

structure AvailOk where
  granularity : Granularity
  buckets : List String
deriving DecidableEq, Repr

/-- A bucket's start instant lies inside a blackout window (the
`blockedByBlackout` check of the availability route; the instant a bucket
string parses back to is its aligned start time). -/
def inBlackout (l : Listing) (t : Int) : Bool :=
  l.blackouts.any (fun b => b.startMs ≤ t && t < b.endMs)

/-- Model of `GET /listings/:id/availability` (`listings/http.ts`): id and
window validation (31-day cap) before any store read, then the free buckets
(neither locked nor starting inside a blackout). -/
def getAvailability (listingId : String) (startMs endMs : Int) (w : World) :
    RouteRes AvailOk :=
  if ¬ (isValidObjectId listingId = true) then
    RouteRes.err 422 ⟨"INVALID_ID", some "Invalid listing id", none, none⟩
  else if endMs ≤ startMs then
    RouteRes.err 422 ⟨"INVALID_WINDOW", some "end must be after start", none, none⟩
  else if endMs - startMs > 31 * 24 * 3600 * 1000 then
    RouteRes.err 422 ⟨"INVALID_WINDOW", some "range too large", none, none⟩
  else
    match findListing w listingId with
    | none => RouteRes.err 404 ⟨"LISTING_NOT_FOUND", some "Listing not found", none, none⟩
    | some listing =>
      if listing.status ≠ "active" then
        RouteRes.err 404 ⟨"LISTING_NOT_FOUND", some "Listing not found", none, none⟩
      else
        let category := getCategory w listing
        let granularity := if category ∈ HOUR_CATS then Granularity.hour else Granularity.day
        let times := bucketTimes startMs endMs granularity
        if times = [] then RouteRes.ok ⟨granularity, []⟩
        else
          let available := times.filter (fun t =>
            !(w.locks.any (fun l => l.listingId == listingId && l.dateBucket == bucketKey granularity t)) &&
            !(inBlackout listing t))
          RouteRes.ok ⟨granularity, available.map (bucketKey granularity)⟩

/-- Model of the listing/window `createBooking({renterId, listingId, start,
end})` iteration: window validation (31-day cap) before the listing is even
loaded, then availability, day pricing, booking creation and bucket locking
(rolling the booking back on a lock conflict). -/
def createBookingDirect (renterId listingId : String) (startMs endMs : Int) (w : World) :
    Except SvcErr Booking × World :=
  if ¬ (isValidObjectId listingId = true) then
    (Except.error (mkErr "INVALID_ID" "Invalid listingId" none), w)
  else if endMs ≤ startMs then
    (Except.error (mkErr "INVALID_WINDOW" "end must be after start" none), w)
  else if endMs - startMs > 31 * 24 * 3600 * 1000 then
    (Except.error (mkErr "INVALID_WINDOW" "range too large" none), w)
  else
    match findListing w listingId with
    | none => (Except.error (mkErr "LISTING_NOT_FOUND" "Listing not found" none), w)
    | some listing =>
      if listing.status ≠ "active" then
        (Except.error (mkErr "LISTING_NOT_FOUND" "Listing not found" none), w)
      else
        let gb := buildBucketsAndGranularity w listing startMs endMs
        match assertAvailable listing startMs endMs gb.2 w with
        | some e => (Except.error e, w)
        | none =>
          match priceSnapshotByDays listing startMs endMs with
          | Except.error e => (Except.error e, w)
          | Except.ok ps =>
            let bid := "bk_" ++ toString w.nextId
            let doc : Booking :=
              { id := bid
                listingId := listing.id
                assetId := listing.assetId
                hostId := listing.hostId
                renterId := renterId
                startMs := startMs
                endMs := endMs
                granularity := gb.1
                pricingSnapshot :=
                  { currency := "usd", totalCents := ps.2.totalCents,
                    baseCents := some ps.2.baseCents, feeCents := some ps.2.feeCents,
                    discountCents := none, taxCents := some ps.2.taxCents,
                    depositCents := some ps.2.depositCents, promoCode := none, lineItems := [] }
                state := if listing.instantBook then BookingState.accepted else BookingState.pending
                paymentStatus := PaymentStatus.unpaid
                rentalIntentId := none
                chargeId := none
                checkin := none
                checkout := none }
            let w1 : World := { w with bookings := w.bookings ++ [doc], nextId := w.nextId + 1 }
            match lockBuckets listing.id gb.1 none (some ("booking:" ++ bid)) none gb.2 w1.locks with
            | (Except.error _, _) =>
              let w2 : World := { w1 with bookings := w1.bookings.filter (fun b => !(b.id == bid)) }
              (Except.error (mkErr "UNAVAILABLE" "Requested window is unavailable" none), w2)
            | (Except.ok _, locks') =>
              (Except.ok doc, { w1 with locks := locks' })

/-! ## Idempotency utility (`utils/idempotency.ts`, `getOrSetIdempotent`) -/

structure Stored (T : Type) where
  status : Nat
  body : T
deriving DecidableEq, Repr

def storeLookup {T : Type} (store : List (String × Stored T)) (k : String) : Option (Stored T) :=
  (store.find? (fun p => p.1 == k)).map (fun p => p.2)

def storeInsert {T : Type} (store : List (String × Stored T)) (k : String) (v : Stored T) :
    List (String × Stored T) :=
  store ++ [(k, v)]

/-- Model of `getOrSetIdempotent(key, ttlSecs, compute)`: the Redis value space
is split into the typed result entries (`store`, JSON round-trip elided) and
the set of held `<key>:lock` keys (`lockSet`). TTL expiry is modelled as key
absence. In this sequential embedding no concurrent writer can publish a
result between two of our own reads, so the lock holder's double-check misses
and a blocked waiter's poll times out into the compute-yourself fallback; both
branches compute, store, and report `replay := false`. -/
def getOrSetIdempotent {T : Type} (store : List (String × Stored T)) (lockSet : List String)
    (k : String) (ttlSecs : Nat) (compute : Unit → Stored T) :
    (Stored T × Bool) × (List (String × Stored T) × List String) :=
  match storeLookup store k with
  | some v => ((v, true), (store, lockSet))
  | none =>
    let lockKey := k ++ ":lock"
    if lockKey ∈ lockSet then
      let v := compute ()
      ((v, false), (storeInsert store k v, lockSet))
    else
      let v := compute ()
      ((v, false), (storeInsert store k v, lockSet))

deriving instance DecidableEq for Except

/-! ## Concrete test fixtures (used by the closed witnesses and counterexamples) -/

def snapBase : Snapshot :=
  { currency := "usd", totalCents := 100, baseCents := some 100, feeCents := some 0,
    discountCents := some 0, taxCents := some 0, depositCents := some 0,
    promoCode := none, lineItems := [] }

/-- A one-day paid pending booking for 1970-01-01, host `host_1`, renter `rent_1`. -/
def bkBase : Booking :=
  { id := "aaaaaaaaaaaaaaaaaaaaaaaa", listingId := "cccccccccccccccccccccccc", assetId := "a1",
    hostId := "host_1", renterId := "rent_1", startMs := 0, endMs := 86400000,
    granularity := Granularity.day, pricingSnapshot := snapBase,
    state := BookingState.pending, paymentStatus := PaymentStatus.paid,
    rentalIntentId := some "pi_1", chargeId := some "ch_1", checkin := none, checkout := none }

/-- A world holding exactly one booking and nothing else. -/
def worldOf (b : Booking) : World :=
  { bookings := [b], locks := [], listings := [], assets := [], paymentIntents := [],
    refunds := [], kv := [], nextId := 0 }

/-- The world after persisting a mutated booking. -/
def worldUpd (w : World) (bid : String) (b' : Booking) : World :=
  { w with bookings := replaceBooking w.bookings bid b' }

def envOpen : Env := ⟨none, none⟩

/-- A notes-only valid checkpoint payload. -/
def inputNotes : CheckpointInput := ⟨none, some "ok", none⟩

def cpDone : Checkpoint := ⟨some "rent_1", some 10, [], some "ok", none⟩

/-- `bkBase` accepted (check-in-ready). -/
def bkAccepted : Booking := { bkBase with state := BookingState.accepted }

/-- `bkBase` in progress with a recorded check-in. -/
def bkCheckedIn : Booking :=
  { bkBase with state := BookingState.inProgress, checkin := some cpDone }

/-- `bkBase` completed with both checkpoints recorded. -/
def bkCheckedOut : Booking :=
  { bkCheckedIn with state := BookingState.completed, checkout := some cpDone }

def lst1 : Listing :=
  { id := "cccccccccccccccccccccccc", hostId := "host_1", assetId := "a1", status := "active",
    instantBook := false, blackouts := [],
    pricing := { baseDailyCents := some 100, baseHourlyCents := none, feeCents := some 0,
                 depositCents := some 0, currency := some "usd" } }

def asset1 : Asset := ⟨"a1", none⟩

def quote100 : Quote :=
  { currency := "usd", granularity := Granularity.day, nUnits := 1, baseCents := 100,
    feeCents := 0, discountCents := 0, taxCents := 0, depositCents := 0, totalCents := 100,
    lineItems := [] }

/-- A constant Quote Engine used by the concrete scenarios. -/
def qfFix : QuoteFn := fun _ _ _ _ => Except.ok quote100

def piMeta (total : Int) : PiMetadata :=
  { renterId := "rent_1", listingId := "cccccccccccccccccccccccc", startMs := some 0,
    endMs := some 86400000, totalCents := total, promoCode := none }

/-- A succeeded PaymentIntent whose captured amount and recorded quoted total
both equal `total`. -/
def piOf (total : Int) : PaymentIntent :=
  { id := "pi_1", status := PiStatus.succeeded, amount := total, clientSecret := "cs_1",
    metadata := piMeta total, latestCharge := some "ch_1" }

/-- The world right after a Step A hold for `pi_1` on 1970-01-01: the PI is
succeeded at 100 cents and the single day bucket is locked with reason `pi:pi_1`. -/
def wStepA : World :=
  { bookings := [], listings := [lst1], assets := [asset1], paymentIntents := [piOf 100],
    locks := [⟨"cccccccccccccccccccccccc", "1970-01-01", Granularity.day, some "rent_1",
               some "pi:pi_1", some 1800000⟩],
    refunds := [], kv := [], nextId := 0 }

/-- Like `wStepA` but the PI was captured at 90 cents with a 90-cent recorded
total, while the recomputed quote is 100 cents: an amount mismatch. -/
def wMismatch : World :=
  { wStepA with paymentIntents := [piOf 90] }

/-- The Step B context `stepBPre` reaches on `wMismatch`. -/
def ctxMismatch : StepBCtx :=
  { pi := piOf 90, listing := lst1, startMs := 0, endMs := 86400000,
    granularity := Granularity.day, buckets := ["1970-01-01"], quote := quote100,
    snapshotTotalCents := 90, promoCode := none }

/-- The Booking the first successful Step B call on `wStepA` creates. -/
def bkC1 : Booking :=
  { id := "bk_0", listingId := "cccccccccccccccccccccccc", assetId := "a1",
    hostId := "host_1", renterId := "rent_1", startMs := 0, endMs := 86400000,
    granularity := Granularity.day, pricingSnapshot := snapBase,
    state := BookingState.pending, paymentStatus := PaymentStatus.paid,
    rentalIntentId := some "pi_1", chargeId := some "ch_1", checkin := none, checkout := none }

/-- The world after the first successful Step B call on `wStepA`: the booking
is durable and the hold has been retagged from `pi:pi_1` to `booking:bk_0`
with its TTL cleared. -/
def wAfterB : World :=
  { bookings := [bkC1], listings := [lst1], assets := [asset1], paymentIntents := [piOf 100],
    locks := [⟨"cccccccccccccccccccccccc", "1970-01-01", Granularity.day, some "rent_1",
               some "booking:bk_0", none⟩],
    refunds := [], kv := [], nextId := 1 }

/-- A world for Step A with the requested day bucket already locked by another
reservation and nothing cached. -/
def wConflict : World :=
  { bookings := [], listings := [lst1], assets := [asset1], paymentIntents := [],
    locks := [⟨"cccccccccccccccccccccccc", "1970-01-01", Granularity.day, none,
               some "booking:other", none⟩],
    refunds := [], kv := [], nextId := 0 }

/-! ## Lemmas: the bucket-enumeration loop -/

theorem stepTimesFuel_congr (step : Int) (hs : 0 < step) :
    ∀ (n m : Nat) (t e : Int), e - t ≤ (n : Int) → e - t ≤ (m : Int) →
      stepTimesFuel step n t e = stepTimesFuel step m t e := by
  intro n
  induction n with
  | zero =>
    intro m t e hn _
    cases m with
    | zero => rfl
    | succ m =>
      simp only [stepTimesFuel]
      rw [if_neg (by omega)]
  | succ n ih =>
    intro m t e hn hm
    by_cases h : t < e
    · cases m with
      | zero => exact absurd hm (by omega)
      | succ m =>
        simp only [stepTimesFuel, if_pos h]
        rw [ih m (t + step) e (by omega) (by omega)]
    · cases m with
      | zero => simp only [stepTimesFuel]; rw [if_neg h]
      | succ m => simp only [stepTimesFuel]; rw [if_neg h, if_neg h]

theorem stepTimes_unfold (step t e : Int) (hs : 0 < step) :
    stepTimes step t e = if t < e then t :: stepTimes step (t + step) e else [] := by
  unfold stepTimes
  by_cases h : t < e
  · rw [if_pos h]
    obtain ⟨k, hk⟩ : ∃ k, (e - t).toNat = k + 1 := ⟨(e - t).toNat - 1, by omega⟩
    rw [hk]
    simp only [stepTimesFuel, if_pos h]
    rw [stepTimesFuel_congr step hs k ((e - (t + step)).toNat) (t + step) e (by omega) (by omega)]
  · rw [if_neg h]
    cases hk : (e - t).toNat with
    | zero => rfl
    | succ k => simp only [stepTimesFuel]; rw [if_neg h]

theorem stepTimes_eq_nil_iff (step t e : Int) (hs : 0 < step) :
    stepTimes step t e = [] ↔ e ≤ t := by
  by_cases h : t < e
  · rw [stepTimes_unfold step t e hs, if_pos h]
    simp only [List.cons_ne_nil, false_iff]
    omega
  · rw [stepTimes_unfold step t e hs, if_neg h]
    simp only [true_iff]
    omega

theorem mem_stepTimes (step : Int) (hs : 0 < step) :
    ∀ (t e u : Int), (u ∈ stepTimes step t e ↔ ∃ k : Nat, u = t + k * step ∧ u < e) := by
  have main : ∀ (n : Nat) (t e u : Int), (e - t).toNat ≤ n →
      (u ∈ stepTimes step t e ↔ ∃ k : Nat, u = t + k * step ∧ u < e) := by
    intro n
    induction n with
    | zero =>
      intro t e u hn
      rw [stepTimes_unfold step t e hs, if_neg (by omega)]
      simp only [List.not_mem_nil, false_iff]
      rintro ⟨k, rfl, hlt⟩
      have hk : 0 ≤ (k : Int) * step := mul_nonneg (by positivity) hs.le
      omega
    | succ n ih =>
      intro t e u hn
      rw [stepTimes_unfold step t e hs]
      by_cases h : t < e
      · rw [if_pos h]
        simp only [List.mem_cons]
        rw [ih (t + step) e u (by omega)]
        constructor
        · rintro (rfl | ⟨k, rfl, hlt⟩)
          · exact ⟨0, by simp, h⟩
          · exact ⟨k + 1, by push_cast; ring, hlt⟩
        · rintro ⟨k, rfl, hlt⟩
          cases k with
          | zero => left; simp
          | succ k => right; exact ⟨k, by push_cast; ring, hlt⟩
      · rw [if_neg h]
        simp only [List.not_mem_nil, false_iff]
        rintro ⟨k, rfl, hlt⟩
        have hk : 0 ≤ (k : Int) * step := mul_nonneg (by positivity) hs.le
        omega
  intro t e u
  exact main ((e - t).toNat) t e u le_rfl

theorem chain'_stepTimes (step : Int) (hs : 0 < step) :
    ∀ (t e : Int), List.Chain' (· < ·) (stepTimes step t e) := by
  have main : ∀ (n : Nat) (t e : Int), (e - t).toNat ≤ n →
      List.Chain' (· < ·) (stepTimes step t e) := by
    intro n
    induction n with
    | zero =>
      intro t e hn
      rw [stepTimes_unfold step t e hs, if_neg (by omega)]
      exact List.chain'_nil
    | succ n ih =>
      intro t e hn
      rw [stepTimes_unfold step t e hs]
      by_cases h : t < e
      · rw [if_pos h, List.chain'_cons']
        refine ⟨?_, ih (t + step) e (by omega)⟩
        intro b hb
        rw [stepTimes_unfold step (t + step) e hs] at hb
        by_cases h2 : t + step < e
        · rw [if_pos h2] at hb
          simp only [List.head?_cons, Option.mem_def, Option.some.injEq] at hb
          omega
        · rw [if_neg h2] at hb
          simp at hb
      · rw [if_neg h]
        exact List.chain'_nil
  intro t e
  exact main ((e - t).toNat) t e le_rfl

theorem stepMs_pos (g : Granularity) : 0 < stepMs g := by
  cases g <;> decide

theorem align_eq (g : Granularity) (s : Int) : align g s = s / stepMs g * stepMs g := by
  unfold align
  rw [Int.fdiv_eq_ediv _ (le_of_lt (stepMs_pos g))]

theorem align_le (g : Granularity) (s : Int) : align g s ≤ s := by
  rw [align_eq, mul_comm]
  have h1 := Int.ediv_add_emod s (stepMs g)
  have h2 := Int.emod_nonneg s (ne_of_gt (stepMs_pos g))
  linarith

theorem lt_align_add (g : Granularity) (s : Int) : s < align g s + stepMs g := by
  rw [align_eq, mul_comm]
  have h1 := Int.ediv_add_emod s (stepMs g)
  have h3 := Int.emod_lt_of_pos s (stepMs_pos g)
  linarith

theorem align_mul (g : Granularity) (x : Int) : align g (x * stepMs g) = x * stepMs g := by
  rw [align_eq, Int.mul_ediv_cancel _ (ne_of_gt (stepMs_pos g))]

theorem enumerateBuckets_eq_map (s e : Int) (g : Granularity) :
    enumerateBuckets s e g = (bucketTimes s e g).map (bucketKey g) := by
  cases g <;> unfold enumerateBuckets bucketTimes <;> by_cases hgt : e > s
  · rw [if_pos hgt, if_pos hgt]; rfl
  · rw [if_neg hgt, if_neg hgt]; rfl
  · rw [if_pos hgt, if_pos hgt]; rfl
  · rw [if_neg hgt, if_neg hgt]; rfl

theorem bucketTimes_chain' (s e : Int) (g : Granularity) :
    List.Chain' (· < ·) (bucketTimes s e g) := by
  unfold bucketTimes
  by_cases hgt : e > s
  · rw [if_pos hgt]
    exact chain'_stepTimes (stepMs g) (stepMs_pos g) (align g s) e
  · rw [if_neg hgt]
    exact List.chain'_nil

theorem align_mem_bucketTimes (s e t : Int) (g : Granularity) (h1 : s ≤ t) (h2 : t < e) :
    align g t ∈ bucketTimes s e g := by
  have hgt : e > s := lt_of_le_of_lt h1 h2
  unfold bucketTimes
  rw [if_pos hgt, mem_stepTimes (stepMs g) (stepMs_pos g)]
  have hmono : s / stepMs g ≤ t / stepMs g := Int.ediv_le_ediv (stepMs_pos g) h1
  refine ⟨(t / stepMs g - s / stepMs g).toNat, ?_, lt_of_le_of_lt (align_le g t) h2⟩
  rw [align_eq, align_eq, Int.toNat_of_nonneg (by omega)]
  ring

theorem mem_bucketTimes_props (s e u : Int) (g : Granularity) (hu : u ∈ bucketTimes s e g) :
    u < e ∧ s < u + stepMs g ∧ align g u = u := by
  unfold bucketTimes at hu
  by_cases hgt : e > s
  · rw [if_pos hgt, mem_stepTimes (stepMs g) (stepMs_pos g)] at hu
    obtain ⟨k, rfl, hlt⟩ := hu
    have hsplit : align g s + (k : Int) * stepMs g = (s / stepMs g + k) * stepMs g := by
      rw [align_eq]; ring
    refine ⟨hlt, ?_, ?_⟩
    · have h1 := lt_align_add g s
      have h2 : 0 ≤ (k : Int) * stepMs g := mul_nonneg (by positivity) (stepMs_pos g).le
      omega
    · rw [hsplit]
      exact align_mul g (s / stepMs g + k)
  · rw [if_neg hgt] at hu
    simp at hu

theorem enumerateBuckets_eq_nil_iff (s e : Int) (g : Granularity) :
    enumerateBuckets s e g = [] ↔ e ≤ s := by
  rw [enumerateBuckets_eq_map, List.map_eq_nil_iff]
  unfold bucketTimes
  by_cases hgt : e > s
  · rw [if_pos hgt, stepTimes_eq_nil_iff _ _ _ (stepMs_pos g)]
    have := align_le g s
    constructor <;> intro <;> omega
  · rw [if_neg hgt]
    simp only [true_iff]
    omega

theorem enumerateBuckets_singleton (s e : Int) (g : Granularity) (h1 : s < e)
    (h2 : e ≤ align g s + stepMs g) : (enumerateBuckets s e g).length = 1 := by
  rw [enumerateBuckets_eq_map, List.length_map]
  unfold bucketTimes
  rw [if_pos h1, stepTimes_unfold _ _ _ (stepMs_pos g),
    if_pos (by have := align_le g s; omega : align g s < e), List.length_cons,
    (stepTimes_eq_nil_iff _ _ _ (stepMs_pos g)).mpr h2]
  rfl

/-- C6: `enumerateBuckets(start, end, granularity)` returns the bucket keys of
an ordered (strictly increasing) sequence of aligned bucket start times covering
the half-open window `[start, end)`: it is empty exactly when `end ≤ start`;
every instant of the window falls into an enumerated bucket; every enumerated
bucket is boundary-aligned and overlaps the window; and a non-empty window
lying inside a single bucket yields exactly one bucket. The function is a pure
Lean function of its arguments, so determinism and absence of side effects hold
by construction. -/
theorem c6_enumerateBuckets_spec (s e : Int) (g : Granularity) :
    (enumerateBuckets s e g = [] ↔ e ≤ s) ∧
    enumerateBuckets s e g = (bucketTimes s e g).map (bucketKey g) ∧
    List.Chain' (· < ·) (bucketTimes s e g) ∧
    (∀ t : Int, s ≤ t → t < e → align g t ∈ bucketTimes s e g) ∧
    (∀ u ∈ bucketTimes s e g, u < e ∧ s < u + stepMs g ∧ align g u = u) ∧
    (s < e → e ≤ align g s + stepMs g → (enumerateBuckets s e g).length = 1) :=
  ⟨enumerateBuckets_eq_nil_iff s e g,
   enumerateBuckets_eq_map s e g,
   bucketTimes_chain' s e g,
   fun t h1 h2 => align_mem_bucketTimes s e t g h1 h2,
   fun u hu => mem_bucketTimes_props s e u g hu,
   fun h1 h2 => enumerateBuckets_singleton s e g h1 h2⟩

/-- Witness for C6 at concrete inputs: the day bucket containing instant 0 is
enumerated for the window `[0, 86400000)`, and the sub-bucket window `[0, 3600)`
yields exactly one day bucket. -/
theorem c6_enumerateBuckets_spec_witness :
    align Granularity.day 0 ∈ bucketTimes 0 86400000 Granularity.day ∧
    (enumerateBuckets 0 3600 Granularity.day).length = 1 :=
  ⟨(c6_enumerateBuckets_spec 0 86400000 Granularity.day).2.2.2.1 0 (by decide) (by decide),
   (c6_enumerateBuckets_spec 0 3600 Granularity.day).2.2.2.2.2 (by decide) (by decide)⟩

/-! ## C8: idempotency cache replay -/

/-- C8: on a key with a stored idempotency record, `getOrSetIdempotent` returns
the previously stored `{status, result}` value marked as a replay
(`replay = true`), leaves the store untouched, and never invokes the compute
function — its result does not depend on which compute function is passed. -/
theorem c8_idempotency_replay {T : Type} (store : List (String × Stored T))
    (lockSet : List String) (k : String) (ttlSecs : Nat) (v : Stored T)
    (compute compute' : Unit → Stored T) (hhit : storeLookup store k = some v) :
    getOrSetIdempotent store lockSet k ttlSecs compute = ((v, true), (store, lockSet)) ∧
    getOrSetIdempotent store lockSet k ttlSecs compute =
      getOrSetIdempotent store lockSet k ttlSecs compute' := by
  unfold getOrSetIdempotent
  rw [hhit]
  exact ⟨rfl, rfl⟩

/-- Witness for C8: a concrete store with a cached `{status := 200, body := 7}`
record replays it. -/
theorem c8_idempotency_replay_witness :
    getOrSetIdempotent [("k1", (⟨200, 7⟩ : Stored Nat))] [] "k1" 60 (fun _ => ⟨500, 0⟩) =
      ((⟨200, 7⟩, true), ([("k1", ⟨200, 7⟩)], [])) :=
  (c8_idempotency_replay [("k1", ⟨200, 7⟩)] [] "k1" 60 ⟨200, 7⟩ (fun _ => ⟨500, 0⟩)
    (fun _ => ⟨404, 1⟩) (by decide)).1

/-! ## C2: accept / decline / cancel on a non-pending reservation -/

/-- C2 (amended): on an existing reservation whose state is not `pending`, the
authorised accept / decline / cancel calls do not return the record — each
fails with `INVALID_STATE` (409) and leaves the world untouched (same booking
state, no refund issued, no locks released). -/
theorem c2_nonpending_invalid_state (actor bookingId : String) (w : World) (b : Booking)
    (hid : isValidObjectId bookingId = true)
    (hfind : findBooking w bookingId = some b)
    (hstate : b.state ≠ BookingState.pending) :
    (b.hostId = actor →
      acceptBooking actor bookingId w = (Except.error invalidStateErr, w) ∧
      declineBooking actor bookingId w = (Except.error invalidStateErr, w)) ∧
    (b.renterId = actor →
      cancelPendingBooking actor bookingId w = (Except.error invalidStateErr, w)) := by
  constructor
  · intro hhost
    constructor
    · unfold acceptBooking
      rw [if_neg (by simp [hid]), hfind]
      dsimp only
      rw [if_neg (by simp [hhost]), if_pos hstate]
    · unfold declineBooking
      rw [if_neg (by simp [hid]), hfind]
      dsimp only
      rw [if_neg (by simp [hhost]), if_pos hstate]
  · intro hrent
    unfold cancelPendingBooking
    rw [if_neg (by simp [hid]), hfind]
    dsimp only
    rw [if_neg (by simp [hrent]), if_pos hstate]

/-- Counterexample for C2 as stated: a host retrying accept on an
already-accepted reservation receives an `INVALID_STATE` error — the call
errors instead of returning the current record unchanged. -/
theorem c2_accept_retry_errors :
    acceptBooking "host_1" "aaaaaaaaaaaaaaaaaaaaaaaa"
      (worldOf { bkBase with state := BookingState.accepted }) =
    (Except.error invalidStateErr, worldOf { bkBase with state := BookingState.accepted }) := by
  decide

/-- Witness for C2 (amended) at a concrete declined reservation: the renter's
cancel retry fails `INVALID_STATE` with the world unchanged. -/
theorem c2_nonpending_invalid_state_witness :
    cancelPendingBooking "rent_1" "aaaaaaaaaaaaaaaaaaaaaaaa"
      (worldOf { bkBase with state := BookingState.declined }) =
    (Except.error invalidStateErr, worldOf { bkBase with state := BookingState.declined }) :=
  (c2_nonpending_invalid_state "rent_1" "aaaaaaaaaaaaaaaaaaaaaaaa"
    (worldOf { bkBase with state := BookingState.declined })
    { bkBase with state := BookingState.declined }
    (by decide) (by decide) (by decide)).2 (by decide)

/-! ## C9: authorisation failures — NOT_FOUND for checkpoints, FORBIDDEN for lifecycle -/

/-- C9 (amended): for an existing reservation and an unauthorised actor, the
checkpoint operations check-in and check-out respond `NOT_FOUND` (hiding the
reservation's existence), but the lifecycle operations accept, decline and
cancel respond `FORBIDDEN` (403), which does reveal it. -/
theorem c9_auth_error_codes (env : Env) (now : Int) (actor bookingId : String)
    (input : CheckpointInput) (w : World) (b : Booking)
    (hid : isValidObjectId bookingId = true)
    (hfind : findBooking w bookingId = some b) :
    (isParticipant b actor = false → validateCheckpointInput env input = none →
      checkIn env now actor bookingId input w = (Except.error notFoundErr, w) ∧
      checkOut env now actor bookingId input w = (Except.error notFoundErr, w)) ∧
    (b.hostId ≠ actor →
      acceptBooking actor bookingId w = (Except.error forbiddenErr, w) ∧
      declineBooking actor bookingId w = (Except.error forbiddenErr, w)) ∧
    (b.renterId ≠ actor →
      cancelPendingBooking actor bookingId w = (Except.error forbiddenErr, w)) := by
  refine ⟨?_, ?_, ?_⟩
  · intro hpart hval
    constructor
    · unfold checkIn
      rw [if_neg (by simp [hid]), hval]
      dsimp only
      rw [hfind]
      dsimp only
      rw [if_pos (by simp [hpart])]
    · unfold checkOut
      rw [if_neg (by simp [hid]), hval]
      dsimp only
      rw [hfind]
      dsimp only
      rw [if_pos (by simp [hpart])]
  · intro hhost
    constructor
    · unfold acceptBooking
      rw [if_neg (by simp [hid]), hfind]
      dsimp only
      rw [if_pos hhost]
    · unfold declineBooking
      rw [if_neg (by simp [hid]), hfind]
      dsimp only
      rw [if_pos hhost]
  · intro hrent
    unfold cancelPendingBooking
    rw [if_neg (by simp [hid]), hfind]
    dsimp only
    rw [if_pos hrent]

/-- Counterexample for C9 as stated: a stranger invoking accept on an existing
pending reservation receives `FORBIDDEN` (403), not a not-found error — the
lifecycle operations do leak the reservation's existence. -/
theorem c9_accept_forbidden_not_notfound :
    acceptBooking "stranger" "aaaaaaaaaaaaaaaaaaaaaaaa" (worldOf bkBase) =
      (Except.error forbiddenErr, worldOf bkBase) ∧
    forbiddenErr.code ≠ "NOT_FOUND" := by
  constructor
  · decide
  · decide

/-- Witness for C9 (amended): a stranger's check-in attempt on an existing
reservation answers `NOT_FOUND`, while the same stranger's accept answers
`FORBIDDEN`. -/
theorem c9_auth_error_codes_witness :
    checkIn envOpen 50 "stranger" "aaaaaaaaaaaaaaaaaaaaaaaa" inputNotes (worldOf bkBase) =
      (Except.error notFoundErr, worldOf bkBase) ∧
    declineBooking "stranger" "aaaaaaaaaaaaaaaaaaaaaaaa" (worldOf bkBase) =
      (Except.error forbiddenErr, worldOf bkBase) :=
  ⟨((c9_auth_error_codes envOpen 50 "stranger" "aaaaaaaaaaaaaaaaaaaaaaaa" inputNotes
      (worldOf bkBase) bkBase (by decide) (by decide)).1 (by decide) (by decide)).1,
   ((c9_auth_error_codes envOpen 50 "stranger" "aaaaaaaaaaaaaaaaaaaaaaaa" inputNotes
      (worldOf bkBase) bkBase (by decide) (by decide)).2.1 (by decide)).2⟩

/-! ## C10: the 31-day window cap -/

/-- C10: a requested window longer than 31 days is rejected with
`INVALID_WINDOW` ("range too large") by both the public availability query and
the direct booking-creation operation, uniformly in the world — the checks run
before the listing, lock, or reservation state is consulted, so the rejection
holds even when every bucket is free, and booking creation leaves the world
unchanged. -/
theorem c10_range_too_large (renterId listingId : String) (startMs endMs : Int) (w : World)
    (hid : isValidObjectId listingId = true)
    (hbig : endMs - startMs > 31 * 24 * 3600 * 1000) :
    getAvailability listingId startMs endMs w =
      RouteRes.err 422 ⟨"INVALID_WINDOW", some "range too large", none, none⟩ ∧
    createBookingDirect renterId listingId startMs endMs w =
      (Except.error (mkErr "INVALID_WINDOW" "range too large" none), w) := by
  constructor
  · unfold getAvailability
    rw [if_neg (by simp [hid]), if_neg (by omega), if_pos (by omega)]
  · unfold createBookingDirect
    rw [if_neg (by simp [hid]), if_neg (by omega), if_pos (by omega)]

/-- Witness for C10: a 32-day window on an empty world is rejected up front. -/
theorem c10_range_too_large_witness :
    getAvailability "cccccccccccccccccccccccc" 0 (32 * 86400000)
      (worldOf bkBase) =
      RouteRes.err 422 ⟨"INVALID_WINDOW", some "range too large", none, none⟩ ∧
    createBookingDirect "rent_1" "cccccccccccccccccccccccc" 0 (32 * 86400000)
      (worldOf bkBase) =
      (Except.error (mkErr "INVALID_WINDOW" "range too large" none), worldOf bkBase) :=
  c10_range_too_large "rent_1" "cccccccccccccccccccccccc" 0 (32 * 86400000)
    (worldOf bkBase) (by decide) (by decide)

/-! ## C7: checkpoint idempotency -/

/-- C7: when the corresponding checkpoint is already recorded, check-in and
check-out return the current record unchanged for any participant and any
valid payload — no new checkpoint is written, no state change, no world
change. -/
theorem c7_checkpoint_idempotent (env : Env) (now : Int) (actor bookingId : String)
    (input : CheckpointInput) (w : World) (b : Booking)
    (hid : isValidObjectId bookingId = true)
    (hval : validateCheckpointInput env input = none)
    (hfind : findBooking w bookingId = some b)
    (hpart : isParticipant b actor = true) :
    ((b.checkin.bind Checkpoint.atMs).isSome →
      checkIn env now actor bookingId input w = (Except.ok b, w)) ∧
    ((b.checkout.bind Checkpoint.atMs).isSome →
      checkOut env now actor bookingId input w = (Except.ok b, w)) := by
  constructor
  · intro hin
    unfold checkIn
    rw [if_neg (by simp [hid]), hval]
    dsimp only
    rw [hfind]
    dsimp only
    rw [if_neg (by simp [hpart]), if_pos hin]
  · intro hout
    unfold checkOut
    rw [if_neg (by simp [hid]), hval]
    dsimp only
    rw [hfind]
    dsimp only
    rw [if_neg (by simp [hpart]), if_pos hout]


/-- Witness for C7: retrying check-in on an in-progress booking that already
has a check-in, and check-out on a completed booking that already has a
check-out, both return the record unchanged. -/
theorem c7_checkpoint_idempotent_witness :
    checkIn envOpen 99999 "rent_1" "aaaaaaaaaaaaaaaaaaaaaaaa" inputNotes (worldOf bkCheckedIn) =
      (Except.ok bkCheckedIn, worldOf bkCheckedIn) ∧
    checkOut envOpen 99999 "host_1" "aaaaaaaaaaaaaaaaaaaaaaaa" inputNotes (worldOf bkCheckedOut) =
      (Except.ok bkCheckedOut, worldOf bkCheckedOut) :=
  ⟨(c7_checkpoint_idempotent envOpen 99999 "rent_1" "aaaaaaaaaaaaaaaaaaaaaaaa" inputNotes
      (worldOf bkCheckedIn) bkCheckedIn (by decide) (by decide) (by decide) (by decide)).1
      (by decide),
   (c7_checkpoint_idempotent envOpen 99999 "host_1" "aaaaaaaaaaaaaaaaaaaaaaaa" inputNotes
      (worldOf bkCheckedOut) bkCheckedOut (by decide) (by decide) (by decide) (by decide)).2
      (by decide)⟩

/-! ## C5: check-in / check-out guards -/

/-- C5: with no prior checkpoint recorded, check-in succeeds exactly for a
participant on an `accepted`, `paid` reservation with `now ∈ [start, end]`
(moving the state to `in_progress`), and check-out succeeds exactly for a
participant on an `in_progress` reservation with a recorded check-in and
`now ∈ [checkin.at, end + 12h]` (moving the state to `completed`); state-guard
violations fail `INVALID_STATE` and timing violations fail the
checkpoint-timing `INVALID_WINDOW` error. -/
theorem c5_checkpoint_guards (env : Env) (now : Int) (actor bookingId : String)
    (input : CheckpointInput) (w : World) (b : Booking)
    (hid : isValidObjectId bookingId = true)
    (hval : validateCheckpointInput env input = none)
    (hfind : findBooking w bookingId = some b) :
    ((b.checkin.bind Checkpoint.atMs) = none →
      ((isParticipant b actor = true → b.state = BookingState.accepted →
          b.paymentStatus = PaymentStatus.paid → b.startMs ≤ now → now ≤ b.endMs →
          checkIn env now actor bookingId input w =
            (Except.ok (checkinApplied b actor now input),
             { w with bookings :=
                 replaceBooking w.bookings bookingId (checkinApplied b actor now input) })) ∧
       (∀ b', (checkIn env now actor bookingId input w).1 = Except.ok b' →
          isParticipant b actor = true ∧ b.state = BookingState.accepted ∧
          b.paymentStatus = PaymentStatus.paid ∧ b.startMs ≤ now ∧ now ≤ b.endMs ∧
          b' = checkinApplied b actor now input ∧ b'.state = BookingState.inProgress) ∧
       (isParticipant b actor = true →
          (b.state ≠ BookingState.accepted ∨ b.paymentStatus ≠ PaymentStatus.paid) →
          ∃ err, checkIn env now actor bookingId input w = (Except.error err, w) ∧
            err.code = "INVALID_STATE") ∧
       (isParticipant b actor = true → b.state = BookingState.accepted →
          b.paymentStatus = PaymentStatus.paid → ¬(b.startMs ≤ now ∧ now ≤ b.endMs) →
          checkIn env now actor bookingId input w = (Except.error checkinWindowErr, w)))) ∧
    ((b.checkout.bind Checkpoint.atMs) = none →
      ((∀ cat, isParticipant b actor = true → b.state = BookingState.inProgress →
          b.checkin.bind Checkpoint.atMs = some cat → cat ≤ now →
          now ≤ b.endMs + 12 * 60 * 60 * 1000 →
          checkOut env now actor bookingId input w =
            (Except.ok (checkoutApplied b actor now input),
             { w with bookings :=
                 replaceBooking w.bookings bookingId (checkoutApplied b actor now input) })) ∧
       (∀ b', (checkOut env now actor bookingId input w).1 = Except.ok b' →
          isParticipant b actor = true ∧ b.state = BookingState.inProgress ∧
          (∃ cat, b.checkin.bind Checkpoint.atMs = some cat ∧ cat ≤ now ∧
            now ≤ b.endMs + 12 * 60 * 60 * 1000) ∧
          b' = checkoutApplied b actor now input ∧ b'.state = BookingState.completed) ∧
       (isParticipant b actor = true →
          (b.state ≠ BookingState.inProgress ∨ b.checkin.bind Checkpoint.atMs = none) →
          ∃ err, checkOut env now actor bookingId input w = (Except.error err, w) ∧
            err.code = "INVALID_STATE") ∧
       (∀ cat, isParticipant b actor = true → b.state = BookingState.inProgress →
          b.checkin.bind Checkpoint.atMs = some cat →
          ¬(cat ≤ now ∧ now ≤ b.endMs + 12 * 60 * 60 * 1000) →
          checkOut env now actor bookingId input w = (Except.error checkoutWindowErr, w)))) := by
  constructor
  · intro hnone
    refine ⟨?_, ?_, ?_, ?_⟩
    · intro hp hst hpaid hs he
      unfold checkIn
      rw [if_neg (by simp [hid]), hval]
      dsimp only
      rw [hfind]
      dsimp only
      rw [if_neg (by simp [hp]), if_neg (by simp [hnone]), if_neg (by simp [hst]),
        if_neg (by simp [hpaid]), if_neg (not_not.mpr ⟨hs, he⟩)]
    · intro b' hok
      unfold checkIn at hok
      rw [if_neg (by simp [hid]), hval] at hok
      dsimp only at hok
      rw [hfind] at hok
      dsimp only at hok
      by_cases hp : isParticipant b actor = true
      · rw [if_neg (by simp [hp]), if_neg (by simp [hnone])] at hok
        by_cases hst : b.state = BookingState.accepted
        · rw [if_neg (by simp [hst])] at hok
          by_cases hpaid : b.paymentStatus = PaymentStatus.paid
          · rw [if_neg (by simp [hpaid])] at hok
            by_cases hw : b.startMs ≤ now ∧ now ≤ b.endMs
            · rw [if_neg (not_not.mpr hw)] at hok
              simp only at hok
              rw [Except.ok.injEq] at hok
              subst hok
              exact ⟨hp, hst, hpaid, hw.1, hw.2, rfl, rfl⟩
            · rw [if_pos hw] at hok
              simp at hok
          · rw [if_pos hpaid] at hok
            simp at hok
        · rw [if_pos hst] at hok
          simp at hok
      · rw [if_pos (by simp [hp])] at hok
        simp at hok
    · intro hp hbad
      unfold checkIn
      rw [if_neg (by simp [hid]), hval]
      dsimp only
      rw [hfind]
      dsimp only
      rw [if_neg (by simp [hp]), if_neg (by simp [hnone])]
      by_cases hst : b.state = BookingState.accepted
      · have hpaid : b.paymentStatus ≠ PaymentStatus.paid := by
          rcases hbad with h | h
          · exact absurd hst h
          · exact h
        rw [if_neg (by simp [hst]), if_pos hpaid]
        exact ⟨_, rfl, rfl⟩
      · rw [if_pos hst]
        exact ⟨_, rfl, rfl⟩
    · intro hp hst hpaid hw
      unfold checkIn
      rw [if_neg (by simp [hid]), hval]
      dsimp only
      rw [hfind]
      dsimp only
      rw [if_neg (by simp [hp]), if_neg (by simp [hnone]), if_neg (by simp [hst]),
        if_neg (by simp [hpaid]), if_pos hw]
  · intro houtnone
    refine ⟨?_, ?_, ?_, ?_⟩
    · intro cat hp hst hcat hcl hcu
      unfold checkOut
      rw [if_neg (by simp [hid]), hval]
      dsimp only
      rw [hfind]
      dsimp only
      rw [if_neg (by simp [hp]), if_neg (by simp [houtnone]), if_neg (by simp [hst]), hcat]
      dsimp only
      rw [if_neg (not_not.mpr ⟨hcl, hcu⟩)]
    · intro b' hok
      unfold checkOut at hok
      rw [if_neg (by simp [hid]), hval] at hok
      dsimp only at hok
      rw [hfind] at hok
      dsimp only at hok
      by_cases hp : isParticipant b actor = true
      · rw [if_neg (by simp [hp]), if_neg (by simp [houtnone])] at hok
        by_cases hst : b.state = BookingState.inProgress
        · rw [if_neg (by simp [hst])] at hok
          cases hopt : b.checkin.bind Checkpoint.atMs with
          | none =>
            rw [hopt] at hok
            simp at hok
          | some cat =>
            rw [hopt] at hok
            dsimp only at hok
            by_cases hw : cat ≤ now ∧ now ≤ b.endMs + 12 * 60 * 60 * 1000
            · rw [if_neg (not_not.mpr hw)] at hok
              simp only at hok
              rw [Except.ok.injEq] at hok
              subst hok
              exact ⟨hp, hst, ⟨cat, rfl, hw.1, hw.2⟩, rfl, rfl⟩
            · rw [if_pos hw] at hok
              simp at hok
        · rw [if_pos hst] at hok
          simp at hok
      · rw [if_pos (by simp [hp])] at hok
        simp at hok
    · intro hp hbad
      unfold checkOut
      rw [if_neg (by simp [hid]), hval]
      dsimp only
      rw [hfind]
      dsimp only
      rw [if_neg (by simp [hp]), if_neg (by simp [houtnone])]
      by_cases hst : b.state = BookingState.inProgress
      · have hcin : b.checkin.bind Checkpoint.atMs = none := by
          rcases hbad with h | h
          · exact absurd hst h
          · exact h
        rw [if_neg (by simp [hst]), hcin]
        exact ⟨_, rfl, rfl⟩
      · rw [if_pos hst]
        exact ⟨_, rfl, rfl⟩
    · intro cat hp hst hcat hw
      unfold checkOut
      rw [if_neg (by simp [hid]), hval]
      dsimp only
      rw [hfind]
      dsimp only
      rw [if_neg (by simp [hp]), if_neg (by simp [houtnone]), if_neg (by simp [hst]), hcat]
      dsimp only
      rw [if_pos hw]

/-- Witness for C5: a fresh check-in by the renter at an in-window instant
succeeds into `in_progress`; a check-out by the host inside the check-out
window completes the booking; and check-out before any check-in (here on an
`accepted` booking) fails `INVALID_STATE`. -/
theorem c5_checkpoint_guards_witness :
    checkIn envOpen 50 "rent_1" "aaaaaaaaaaaaaaaaaaaaaaaa" inputNotes (worldOf bkAccepted) =
      (Except.ok (checkinApplied bkAccepted "rent_1" 50 inputNotes),
       worldUpd (worldOf bkAccepted) "aaaaaaaaaaaaaaaaaaaaaaaa"
         (checkinApplied bkAccepted "rent_1" 50 inputNotes)) ∧
    checkOut envOpen 60 "host_1" "aaaaaaaaaaaaaaaaaaaaaaaa" inputNotes (worldOf bkCheckedIn) =
      (Except.ok (checkoutApplied bkCheckedIn "host_1" 60 inputNotes),
       worldUpd (worldOf bkCheckedIn) "aaaaaaaaaaaaaaaaaaaaaaaa"
         (checkoutApplied bkCheckedIn "host_1" 60 inputNotes)) ∧
    (∃ err, checkOut envOpen 60 "rent_1" "aaaaaaaaaaaaaaaaaaaaaaaa" inputNotes
        (worldOf bkAccepted) = (Except.error err, worldOf bkAccepted) ∧
      err.code = "INVALID_STATE") :=
  ⟨((c5_checkpoint_guards envOpen 50 "rent_1" "aaaaaaaaaaaaaaaaaaaaaaaa" inputNotes
      (worldOf bkAccepted) bkAccepted (by decide) (by decide) (by decide)).1 (by decide)).1
      (by decide) (by decide) (by decide) (by decide) (by decide),
   ((c5_checkpoint_guards envOpen 60 "host_1" "aaaaaaaaaaaaaaaaaaaaaaaa" inputNotes
      (worldOf bkCheckedIn) bkCheckedIn (by decide) (by decide) (by decide)).2 (by decide)).1
      10 (by decide) (by decide) (by decide) (by decide) (by decide),
   ((c5_checkpoint_guards envOpen 60 "rent_1" "aaaaaaaaaaaaaaaaaaaaaaaa" inputNotes
      (worldOf bkAccepted) bkAccepted (by decide) (by decide) (by decide)).2
      (by decide)).2.2.1 (by decide) (Or.inl (by decide))⟩

/-! ## C3: amount integrity at finalize -/

/-- C3: when Step B's read-only validations succeed but the captured amount or
the recorded quoted total differs from the price recomputed from the handle's
metadata, `createBooking` fails `AMOUNT_MISMATCH` and leaves the world — in
particular the reservation collection — unchanged. -/
theorem c3_amount_mismatch (qf : QuoteFn) (renterId paymentIntentId : String) (w : World)
    (ctx : StepBCtx) (hpre : stepBPre qf renterId paymentIntentId w = Except.ok ctx)
    (hneq : ctx.pi.amount ≠ ctx.quote.totalCents ∨
      ctx.snapshotTotalCents ≠ ctx.quote.totalCents) :
    createBooking qf renterId paymentIntentId w = (Except.error amountMismatchErr, w) := by
  unfold createBooking
  rw [hpre]
  dsimp only
  rw [if_pos (by omega)]

/-- Witness for C3: a PI captured at 90 cents with a 90-cent recorded total
against a 100-cent recomputed quote is rejected with `AMOUNT_MISMATCH` and no
reservation is created. -/
theorem c3_amount_mismatch_witness :
    createBooking qfFix "rent_1" "pi_1" wMismatch = (Except.error amountMismatchErr, wMismatch) :=
  c3_amount_mismatch qfFix "rent_1" "pi_1" wMismatch ctxMismatch (by decide) (by decide)

/-! ## C4: Step A lock conflicts -/

theorem lockBuckets_conflict (lid : String) (g : Granularity) (cb rsn : Option String)
    (hu : Option Int) :
    ∀ (buckets : List String) (locks : List Lock),
      (∃ bkt ∈ buckets, ∃ l ∈ locks, l.listingId = lid ∧ l.dateBucket = bkt) →
      (lockBuckets lid g cb rsn hu buckets locks).1 = Except.error lockConflictErr := by
  intro buckets
  induction buckets with
  | nil =>
    intro locks h
    rcases h with ⟨bkt, hmem, _⟩
    simp at hmem
  | cons b rest ih =>
    intro locks h
    unfold lockBuckets
    by_cases hc : locks.any (fun l => l.listingId == lid && l.dateBucket == b) = true
    · rw [if_pos hc]
    · rw [if_neg hc]
      apply ih
      rcases h with ⟨bkt, hmem, l, hl, hlid, hbkt⟩
      rcases List.mem_cons.mp hmem with rfl | hrest
      · exact absurd (List.any_eq_true.mpr ⟨l, hl, by simp [hlid, hbkt]⟩) hc
      · exact ⟨bkt, hrest, l, List.mem_append_left _ hl, hlid, hbkt⟩

theorem find?_cancel_map (pid : String) : ∀ ps : List PaymentIntent,
    (ps.map (fun p => if p.id == pid then { p with status := PiStatus.canceled } else p)).find?
        (fun p => p.id == pid) =
      (ps.find? (fun p => p.id == pid)).map (fun p => { p with status := PiStatus.canceled }) := by
  intro ps
  induction ps with
  | nil => rfl
  | cons p rest ih =>
    by_cases h : p.id == pid
    · simp [List.find?, h]
    · rw [List.map_cons, if_neg h, List.find?_cons_of_neg (p := fun x : PaymentIntent => x.id == pid) _ h,
        List.find?_cons_of_neg (p := fun x : PaymentIntent => x.id == pid) _ h]
      exact ih

/-- `findPi` after `cancelPi` on the same id reports the canceled record. -/
theorem findPi_cancelPi (w : World) (pid : String) :
    findPi (cancelPi w pid) pid =
      (findPi w pid).map (fun p => { p with status := PiStatus.canceled }) := by
  unfold findPi cancelPi
  exact find?_cancel_map pid w.paymentIntents

/-- C4 (amended): when Step A (`POST /payments/intents`) reaches hold
acquisition on a cache miss and some requested bucket is already locked for the
listing, the route cancels the just-created payment handle and fails 409
`UNAVAILABLE` — but the error body carries no `conflictBuckets` list (that
payload exists only on the availability/quote-preview checks). -/
theorem c4_stepA_conflict_unavailable (sha1hex : String → String) (now : Int)
    (userId listingId : String) (startMs endMs : Int) (idempHeader : String) (w : World)
    (listing : Listing) (ps : Int × DayPrice)
    (hl : findListing w listingId = some listing)
    (hact : listing.status = "active")
    (hbne : (buildBucketsAndGranularity w listing startMs endMs).2 ≠ [])
    (hps : priceSnapshotByDays listing startMs endMs = Except.ok ps)
    (hpos : ps.2.totalCents > 0)
    (hmiss : kvLookup w.kv
      (intentCacheKey sha1hex userId listingId startMs endMs ps.2.totalCents idempHeader) = none)
    (hconf : ∃ bkt ∈ (buildBucketsAndGranularity w listing startMs endMs).2,
      ∃ l ∈ w.locks, l.listingId = listingId ∧ l.dateBucket = bkt) :
    (postIntents sha1hex now userId listingId startMs endMs idempHeader w).1 =
      RouteRes.err 409 ⟨"UNAVAILABLE", some "Requested window is unavailable", none, none⟩ ∧
    (findPi (postIntents sha1hex now userId listingId startMs endMs idempHeader w).2
        ("pi_" ++ toString w.nextId)).map PaymentIntent.status = some PiStatus.canceled := by
  have hred : postIntents sha1hex now userId listingId startMs endMs idempHeader w =
      intentCreateAndHold now userId listingId startMs endMs
        (buildBucketsAndGranularity w listing startMs endMs).1
        (buildBucketsAndGranularity w listing startMs endMs).2 ps.2.totalCents
        (intentCacheKey sha1hex userId listingId startMs endMs ps.2.totalCents idempHeader) w := by
    unfold postIntents
    rw [hl]
    dsimp only
    rw [if_neg (by simp [hact]), if_neg hbne, hps]
    dsimp only
    rw [if_neg (by omega), hmiss]
  rw [hred]
  unfold intentCreateAndHold
  dsimp only
  have herr := lockBuckets_conflict listingId (buildBucketsAndGranularity w listing startMs endMs).1
    (some userId) (some ("pi:" ++ ("pi_" ++ toString w.nextId)))
    (some (now + 30 * 60 * 1000)) (buildBucketsAndGranularity w listing startMs endMs).2
    w.locks hconf
  split
  next e locks2 hlb =>
    refine ⟨rfl, ?_⟩
    dsimp only
    rw [findPi_cancelPi]
    unfold findPi
    dsimp only
    rw [List.find?_append]
    cases hfa : w.paymentIntents.find? (fun p => p.id == ("pi_" ++ toString w.nextId)) with
    | some p => rfl
    | none => simp [List.find?]
  next u locks2 hlb =>
    rw [hlb] at herr
    simp at herr

/-- Witness for C4 (amended): on `wConflict` the handler answers 409
`UNAVAILABLE` and the freshly created PaymentIntent `pi_0` ends up canceled. -/
theorem c4_stepA_conflict_unavailable_witness :
    (postIntents (fun s => s) 0 "rent_1" "cccccccccccccccccccccccc" 0 86400000 "" wConflict).1 =
      RouteRes.err 409 ⟨"UNAVAILABLE", some "Requested window is unavailable", none, none⟩ ∧
    (findPi (postIntents (fun s => s) 0 "rent_1" "cccccccccccccccccccccccc" 0 86400000 ""
        wConflict).2 ("pi_" ++ toString wConflict.nextId)).map PaymentIntent.status =
      some PiStatus.canceled :=
  c4_stepA_conflict_unavailable (fun s => s) 0 "rent_1" "cccccccccccccccccccccccc" 0 86400000 ""
    wConflict lst1 (1, ⟨100, 0, 0, 0, 100⟩) (by decide) (by decide) (by decide) (by decide)
    (by decide) (by decide)
    ⟨"1970-01-01", by decide,
     ⟨"cccccccccccccccccccccccc", "1970-01-01", Granularity.day, none, some "booking:other", none⟩,
     by decide, by decide, by decide⟩

/-- Counterexample for C4 as stated: with the single requested day bucket
already locked by someone else, Step A answers 409 `UNAVAILABLE` whose error
body has no `conflictBuckets` field populated — the conflicting buckets are
not named. -/
theorem c4_conflict_no_bucket_list :
    ((postIntents (fun s => s) 0 "rent_1" "cccccccccccccccccccccccc" 0 86400000 "" wConflict).1 =
      RouteRes.err 409 ⟨"UNAVAILABLE", some "Requested window is unavailable", none, none⟩) ∧
    (⟨"UNAVAILABLE", some "Requested window is unavailable", none, none⟩ :
      ErrBody).conflictBuckets = none := by
  exact ⟨by decide, rfl⟩

/-! ## C1: retrying Step B after a successful finalize -/

/-- `stepBPre` only reads the payment intents, listings and assets, so it is
unchanged between worlds that agree on those. -/
theorem stepBPre_congr (qf : QuoteFn) (renterId paymentIntentId : String) (w w' : World)
    (h1 : w'.paymentIntents = w.paymentIntents) (h2 : w'.listings = w.listings)
    (h3 : w'.assets = w.assets) :
    stepBPre qf renterId paymentIntentId w' = stepBPre qf renterId paymentIntentId w := by
  unfold stepBPre findPi findListing buildBucketsAndGranularity getCategory findAsset
  rw [h1, h2, h3]

/-- A reservation-scoped lock tag is never a payment-scoped one. -/
theorem booking_ne_pi_reason (a b : String) : ("booking:" ++ a) ≠ ("pi:" ++ b) := by
  intro h
  have hd := congrArg String.data h
  rw [String.data_append, String.data_append] at hd
  have e1 : "booking:".data = ['b', 'o', 'o', 'k', 'i', 'n', 'g', ':'] := rfl
  have e2 : "pi:".data = ['p', 'i', ':'] := rfl
  rw [e1, e2] at hd
  simp only [List.cons_append, List.cons.injEq] at hd
  exact absurd hd.1 (by decide)

/-- After `retagLocks` rewrote every `fromReason` lock of the listing to a
different reason, the finalize-time lock query finds nothing. -/
theorem filter_retag_nil (lid fromReason toReason : String) (hne : toReason ≠ fromReason)
    (locks : List Lock) (buckets : List String) :
    ((locks.map (fun l =>
        if l.listingId == lid && l.reason == some fromReason then
          { l with reason := some toReason, holdUntil := none }
        else l)).filter (fun l =>
          l.listingId == lid && l.reason == some fromReason &&
            buckets.contains l.dateBucket)) = [] := by
  rw [List.filter_eq_nil_iff]
  intro l hl
  rw [List.mem_map] at hl
  obtain ⟨l0, hl0, rfl⟩ := hl
  by_cases hc : l0.listingId == lid && l0.reason == some fromReason
  · rw [if_pos hc]
    simp [hne]
  · rw [if_neg hc]
    simp only [Bool.and_eq_true] at hc ⊢
    tauto

/-- A successful `stepBPre` validated a non-empty window and enumerated its
buckets from it. -/
theorem stepBPre_ok_buckets (qf : QuoteFn) (renterId paymentIntentId : String) (w : World)
    (ctx : StepBCtx) (h : stepBPre qf renterId paymentIntentId w = Except.ok ctx) :
    ctx.buckets = enumerateBuckets ctx.startMs ctx.endMs ctx.granularity ∧
    ctx.startMs < ctx.endMs := by
  unfold stepBPre at h
  dsimp only at h
  repeat' split at h
  all_goals first
    | (rw [Except.ok.injEq] at h
       subst h
       refine ⟨rfl, ?_⟩
       dsimp only
       omega)
    | simp at h

/-- C1 (amended): after a first successful Step B call, a second
`createBooking` with the same payment handle does not return the reservation:
the hold locks were retagged to the booking, so lock verification finds no
`pi:`-tagged locks and the retry fails `UNAVAILABLE`; no second reservation is
created (the reservation collection is unchanged, and independently the unique
index on the payment reference bars a duplicate). -/
theorem c1_stepB_retry (qf : QuoteFn) (renterId paymentIntentId : String) (w : World)
    (b : Booking) (w' : World)
    (h : createBooking qf renterId paymentIntentId w = (Except.ok b, w')) :
    (createBooking qf renterId paymentIntentId w').1 = Except.error unavailableErr ∧
    (createBooking qf renterId paymentIntentId w').2.bookings = w'.bookings := by
  unfold createBooking at h
  cases hpre : stepBPre qf renterId paymentIntentId w with
  | error e =>
    rw [hpre] at h
    exact absurd h (by simp)
  | ok ctx =>
    rw [hpre] at h
    dsimp only at h
    by_cases hamt : ctx.quote.totalCents ≠ ctx.snapshotTotalCents ∨
        ctx.pi.amount ≠ ctx.snapshotTotalCents
    · rw [if_pos hamt] at h
      exact absurd h (by simp)
    · rw [if_neg hamt] at h
      split at h
      · exact absurd h (by simp)
      · split at h
        · exact absurd h (by simp)
        · rw [Prod.mk.injEq] at h
          obtain ⟨hb, hw'⟩ := h
          obtain ⟨hbk, hlt⟩ := stepBPre_ok_buckets qf renterId paymentIntentId w ctx hpre
          have hbne : ctx.buckets ≠ [] := by
            rw [hbk, ne_eq, enumerateBuckets_eq_nil_iff]
            omega
          have hpre' : stepBPre qf renterId paymentIntentId w' = Except.ok ctx := by
            rw [← hpre]
            apply stepBPre_congr
            · rw [← hw']
              rfl
            · rw [← hw']
              rfl
            · rw [← hw']
              rfl
          unfold createBooking
          rw [hpre']
          dsimp only
          rw [if_neg hamt, ← hw']
          dsimp only [retagLocks]
          rw [filter_retag_nil ctx.listing.id ("pi:" ++ ctx.pi.id)
            ("booking:" ++ ("bk_" ++ toString w.nextId))
            (booking_ne_pi_reason ("bk_" ++ toString w.nextId) ctx.pi.id) w.locks ctx.buckets]
          rw [if_pos (by
            simp only [List.length_nil]
            intro hlen
            exact hbne (List.eq_nil_of_length_eq_zero hlen.symm))]
          exact ⟨rfl, rfl⟩

/-- Witness for C1 (amended): on the concrete post-finalize world `wAfterB`,
the retried Step B fails `UNAVAILABLE` and the reservation collection is
unchanged. -/
theorem c1_stepB_retry_witness :
    (createBooking qfFix "rent_1" "pi_1" wAfterB).1 = Except.error unavailableErr ∧
    (createBooking qfFix "rent_1" "pi_1" wAfterB).2.bookings = wAfterB.bookings :=
  c1_stepB_retry qfFix "rent_1" "pi_1" wStepA bkC1 wAfterB (by decide)

/-- Counterexample for C1 as stated: on `wStepA` the first Step B call
succeeds, but the second call with the same succeeded payment handle returns
`UNAVAILABLE` instead of the identical reservation; still, only the one
reservation exists afterwards. -/
theorem c1_retry_returns_unavailable :
    ((createBooking qfFix "rent_1" "pi_1" wStepA).1.isOk = true) ∧
    ((createBooking qfFix "rent_1" "pi_1"
        (createBooking qfFix "rent_1" "pi_1" wStepA).2).1 = Except.error unavailableErr) ∧
    ((createBooking qfFix "rent_1" "pi_1"
        (createBooking qfFix "rent_1" "pi_1" wStepA).2).2.bookings.length = 1) := by
  refine ⟨by decide, by decide, by decide⟩
